import Mathlib

/-!
Verification development for the OpenClaw Feishu-edition gateway supervisor
(`src/electron/gateway-manager.ts`).  The definitions below are a shallow
embedding of the TypeScript source: strings are Lean `String`s, the mutable
`this.state` record is threaded explicitly, and every I/O result that the
code consumes (HTTP probe outcome, log-file contents, direct Feishu API
result, filesystem probes) is passed in as an explicit input.  Log-buffer
bookkeeping (`pushLog`) and `console.log` calls touch only the rolling log
buffer / console and are omitted; no property below reads them.
-/

namespace OpenClawGateway

/- ===================== §1 String helpers ===================== -/

/-- JS `hay.includes(pat)` on character lists: `pat` occurs contiguously in `hay`. -/
def hasSub (pat : List Char) : List Char → Bool
  | [] => pat.isEmpty
  | c :: t => pat.isPrefixOf (c :: t) || hasSub pat t

/-- JS `hay.includes(pat)` on strings. -/
def strContains (hay pat : String) : Bool :=
  hasSub pat.toList hay.toList

/-- JS `arr.slice(-n)`: the last `n` elements. -/
def takeRight (n : Nat) (l : List α) : List α :=
  l.drop (l.length - n)

/-- JS `s.slice(-n)`: the last `n` characters. -/
def takeRightStr (s : String) (n : Nat) : String :=
  String.mk (s.toList.drop (s.length - n))

/-- Case-insensitive match of the (lower-case ASCII) pattern `pat` at the head
of `cs`, mirroring a JS regex literal with the `i` flag. -/
def ciStarts (pat : String) (cs : List Char) : Bool :=
  decide ((cs.take pat.toList.length).map Char.toLower = pat.toList)

/-- JS `s.toLowerCase()` (ASCII case folding, which covers every pattern the
source matches against). -/
def toLowerStr (s : String) : String :=
  String.mk (s.toList.map Char.toLower)

/-- JS `s.trim()`: strip leading and trailing whitespace. -/
def trimStr (s : String) : String :=
  String.mk (((s.toList.dropWhile Char.isWhitespace).reverse.dropWhile Char.isWhitespace).reverse)

/-- Split a character list at a separator character (JS `s.split(sep)` for a
single-character separator: empty pieces are kept). -/
def splitChar (sep : Char) : List Char → List (List Char)
  | [] => [[]]
  | c :: t =>
    let r := splitChar sep t
    if c = sep then [] :: r
    else
      match r with
      | h :: t2 => (c :: h) :: t2
      | [] => [[c]]

/-- JS `s.split(sep)` for a single-character separator. -/
def splitOnC (s : String) (sep : Char) : List String :=
  (splitChar sep s.toList).map String.mk

/-- JS `s.startsWith(pre)` / anchored `^pre` regex match. -/
def isPrefixOfStr (pre s : String) : Bool :=
  pre.toList.isPrefixOf s.toList

/-- JS `s.endsWith(suf)`. -/
def endsWithStr (s suf : String) : Bool :=
  suf.toList.isSuffixOf s.toList

/-- Drop the longest prefix of characters satisfying `p` (used for `\s*`). -/
def dropWhileStr (s : String) (p : Char → Bool) : String :=
  String.mk (s.toList.dropWhile p)

/- ===================== §2 GatewayState ===================== -/

/-- Model of `GatewayStatus` from the source. -/
inductive GatewayStatus where
  | stopped
  | starting
  | running
  | error
deriving DecidableEq, Repr

/-- Model of `EngineStatus` from the source. -/
inductive EngineStatus where
  | not_installed
  | installing
  | installed
  | install_error
deriving DecidableEq, Repr

/-- The fields of `GatewayState` that the class actually stores in
`this.state`.  (`pid`, `uptime` and `recentLogs` are never stored: they are
computed inside `getState()` from `this.process` / `this.startTime` /
`this.logBuffer` and are modelled there.) -/
structure GwState where
  status : GatewayStatus
  error : Option String
  feishuConnected : Bool
  feishuDetail : Option String
  healthCheckDetail : Option String
  modelConfigured : Bool
  engineStatus : EngineStatus
  engineVersion : Option String
  enginePath : Option String
deriving DecidableEq, Repr

/- ===================== §3 detectFeishuFromLog ===================== -/

/-- Branch-1 guard of `detectFeishuFromLog` (active-traffic signal). -/
def activeLineSig (output : String) : Bool :=
  let lower := toLowerStr output
  strContains lower "feishu" &&
    (strContains lower "received message" ||
     strContains lower "dispatching to agent" ||
     strContains lower "dispatch complete" ||
     strContains lower "deliver" ||
     strContains lower "ws connected" ||
     strContains lower "channel feishu started" ||
     strContains lower "feishu channel is active")

/-- Branch-2 guard of `detectFeishuFromLog` (permission warning). -/
def permLineSig (output : String) : Bool :=
  let lower := toLowerStr output
  strContains lower "feishu" && strContains lower "permission error"

/-- Branch-3 guard of `detectFeishuFromLog` (generic positive signal). -/
def connLineSig (output : String) : Bool :=
  let lower := toLowerStr output
  strContains lower "feishu" &&
    (strContains lower "connected" || strContains lower "ready" || strContains lower "online")

/-- Branch-4 guard of `detectFeishuFromLog` (fatal error). -/
def fatalLineSig (output : String) : Bool :=
  let lower := toLowerStr output
  strContains lower "feishu" &&
    (strContains lower "not enabled" ||
     strContains lower "disconnected" ||
     strContains lower "failed to start" ||
     strContains lower "channel stopped" ||
     strContains lower "plugin not found")

/-- A line that matches none of the four recognized categories (branch 5 of
the source only writes to the log buffer). -/
def lineNoSignal (output : String) : Bool :=
  !activeLineSig output && !permLineSig output && !connLineSig output && !fatalLineSig output

/-- The regex `/required:\s*\[([^\]]+)\]/i` tried at the head of `cs`:
case-insensitive `required:`, then whitespace, then `[`, then a non-empty
capture of non-`]` characters, then `]`. -/
def permCapAt (cs : List Char) : Option String :=
  if ciStarts "required:" cs then
    let rest := (cs.drop 9).dropWhile Char.isWhitespace
    match rest with
    | '[' :: r2 =>
      let cap := r2.takeWhile (fun c => !decide (c = ']'))
      if cap.isEmpty then none
      else if decide ((r2.drop cap.length).head? = some ']') then some (String.mk cap)
      else none
    | _ => none
  else none

/-- Leftmost match of `/required:\s*\[([^\]]+)\]/i`, as in JS `String.match`. -/
def permScan : List Char → Option String
  | [] => none
  | cs@(_ :: t) =>
    match permCapAt cs with
    | some r => some r
    | none => permScan t

/-- Model of `output.match(/required:\s*\[([^\]]+)\]/i)`, capture group 1. -/
def extractPermsRaw (s : String) : Option String :=
  permScan s.toList

/-- Model of `permMatch[1].split(',').map(s => s.trim())` when the regex matched. -/
def permsListOf (s : String) : Option (List String) :=
  (extractPermsRaw s).map (fun cap => (splitOnC cap ',').map trimStr)

/-- The `warningDetail` string assembled in branch 2 of `detectFeishuFromLog`. -/
def permWarningDetail (output : String) : String :=
  let perms :=
    match permsListOf output with
    | some l => String.intercalate "\n  · " l
    | none => "未知权限"
  String.intercalate "\n"
    ["飞书已连接 ⚠️ 部分功能受限", "",
     "缺少以下权限（不影响基本收发消息）:",
     "  · " ++ perms, "",
     "请在飞书开放平台 → 权限管理 中添加上述权限，",
     "然后重新发布应用版本。"]

/-- Model of `detectFeishuFromLog(output)`: the update it performs on `this.state`.
Branches are tried in source order; each `return`s, so the chain is
an if/else-if cascade.  Branch 5 and the trailing `pushLog` only touch the
log buffer and leave the state unchanged. -/
def detectFeishuFromLog (st : GwState) (output : String) : GwState :=
  if activeLineSig output then
    let prevDetail := st.feishuDetail.getD ""
    let keepWarning := if strContains prevDetail "⚠️" then prevDetail else ""
    { st with feishuConnected := true,
              feishuDetail := some (if keepWarning ≠ "" then keepWarning else "飞书已连接并工作中") }
  else if permLineSig output then
    let st1 := { st with feishuDetail := some (permWarningDetail output) }
    if !st1.feishuConnected then { st1 with feishuConnected := true } else st1
  else if connLineSig output then
    if !st.feishuConnected then
      { st with feishuConnected := true, feishuDetail := some "飞书已连接" }
    else st
  else if fatalLineSig output then
    { st with feishuConnected := false,
              feishuDetail := some ("飞书异常: \"" ++ ((trimStr output).take 200) ++ "\"") }
  else st

/- ===================== §4 doHealthCheck ===================== -/

/-- Model of `/feishu|lark|飞书|channel/i.test(l)` (log file line filter in `doHealthCheck`). -/
def isFeishuRelated (l : String) : Bool :=
  let s := toLowerStr l
  strContains s "feishu" || strContains s "lark" || strContains s "飞书" || strContains s "channel"

/-- Model of `/error|fatal|panic|exception/i.test(l)` (error-line filter in `doHealthCheck`). -/
def isErrRelated (l : String) : Bool :=
  let s := toLowerStr l
  strContains s "error" || strContains s "fatal" || strContains s "panic" || strContains s "exception"

/-- Model of `feishuLines` computed by `doHealthCheck` from the tail of the log file. -/
def tickFeishuLines (logLines : List String) : List String :=
  logLines.filter isFeishuRelated

/-- Model of `allFeishuText = feishuLines.join(' ').toLowerCase()`. -/
def allFeishuText (logLines : List String) : String :=
  toLowerStr (String.intercalate " " (tickFeishuLines logLines))

/-- Model of `hasActiveSignal` in `doHealthCheck`. -/
def hasActiveSignal (logLines : List String) : Bool :=
  let t := allFeishuText logLines
  strContains t "received message" || strContains t "dispatching to agent" ||
    strContains t "dispatch complete" || strContains t "deliver"

/-- Model of `hasConnectedSignal` in `doHealthCheck`. -/
def hasConnectedSignal (logLines : List String) : Bool :=
  let t := allFeishuText logLines
  strContains t "connected" || strContains t "ready" || strContains t "active" ||
    strContains t "online" || strContains t "started"

/-- Model of `hasPermissionWarning` in `doHealthCheck`. -/
def hasPermissionWarning (logLines : List String) : Bool :=
  strContains (allFeishuText logLines) "permission error"

/-- Model of `hasFatalError` in `doHealthCheck`. -/
def hasFatalError (logLines : List String) : Bool :=
  let t := allFeishuText logLines
  strContains t "not enabled" || strContains t "disconnected" ||
    strContains t "failed to start" || strContains t "channel stopped"

/-- Whether the tick's log-file analysis reaches a classification, i.e. the
value of the local `feishuDetected` flag after method 2 of `doHealthCheck`. -/
def logVerdict (logLines : List String) : Bool :=
  !logLines.isEmpty && !(tickFeishuLines logLines).isEmpty &&
    (hasActiveSignal logLines || hasConnectedSignal logLines ||
     hasFatalError logLines || hasPermissionWarning logLines)

/-- Model of `perms` extracted in the active-plus-permission-warning branch of
`doHealthCheck`: the `required: [...]` capture over `feishuLines.join('\n')`,
split on commas, trimmed, joined with `', '`; empty when absent. -/
def healthPermsOf (feishuLines : List String) : String :=
  match permsListOf (String.intercalate "\n" feishuLines) with
  | some l => String.intercalate ", " l
  | none => ""

/-- Method 2 of `doHealthCheck`: analysis of the gateway's on-disk log file.
Returns the updated state, the lines appended to `healthDetails`, and the
`feishuDetected` flag.  (`logPath`/`logLines`/`totalLines` are the fields of
the `readGatewayLogFile()` result; the `pushLog` of the last five lines only
touches the omitted log buffer.  `readGatewayLogFile` catches its own I/O
errors, so the enclosing `catch` is unreachable and not modelled.) -/
def analyzeGatewayLog (st : GwState) (logPath : String) (logLines : List String)
    (totalLines : Nat) : GwState × List String × Bool :=
  let d0 := ["日志文件: " ++ logPath]
  if logLines.isEmpty then (st, d0 ++ ["日志文件为空或不存在"], false)
  else
    let n := logLines.length
    let d1 := ["日志行数: " ++ toString totalLines ++ "，分析最后 " ++ toString n ++ " 行"]
    let feishuLines := tickFeishuLines logLines
    let fe :=
      if feishuLines.isEmpty then (st, ["日志中未找到飞书/feishu 相关记录"], false)
      else
        let fn := feishuLines.length
        let hdr := ("飞书相关日志 (" ++ toString fn ++ " 行):") ::
          (takeRight 5 feishuLines).map (fun fl => "  " ++ fl.take 200)
        let verdict :=
          if hasActiveSignal logLines || hasConnectedSignal logLines then
            if hasPermissionWarning logLines then
              let perms := healthPermsOf feishuLines
              ({ st with feishuConnected := true,
                         feishuDetail := some ("飞书已连接 ⚠️ 部分权限缺失: " ++ perms ++
                           "\n请在飞书开放平台 → 权限管理 中添加") },
               ["→ 飞书状态: ✅ 已连接（有权限警告）"], true)
            else
              ({ st with feishuConnected := true, feishuDetail := some "飞书已连接并工作中" },
               ["→ 飞书状态: ✅ 已连接"], true)
          else if hasFatalError logLines then
            ({ st with feishuConnected := false,
                       feishuDetail := some ("飞书异常: " ++ (feishuLines.getLast?.getD "").take 200) },
             ["→ 飞书状态: ❌ 异常"], true)
          else if hasPermissionWarning logLines then
            ({ st with feishuConnected := true, feishuDetail := some "飞书已连接 ⚠️ 部分权限缺失" },
             ["→ 飞书状态: ✅ 已连接（有权限警告）"], true)
          else (st, ["→ 飞书日志存在，但无法确定连接状态"], false)
        (verdict.1, hdr ++ verdict.2.1, verdict.2.2)
    let errorLines := logLines.filter isErrRelated
    let d3 :=
      if errorLines.isEmpty then ([] : List String)
      else
        let en := errorLines.length
        ("错误日志 (" ++ toString en ++ " 行):") :: (takeRight 3 errorLines).map (fun el => "  ⚠ " ++ el.take 200)
    (fe.1, d0 ++ d1 ++ fe.2.1 ++ d3, fe.2.2)

/-- The resolved value of the `checkFeishuApiDirect()` promise (it always
resolves, never rejects). -/
structure ApiResult where
  tokenOk : Bool
  botOk : Bool
  detail : String
deriving DecidableEq, Repr

/-- The multi-line `feishuDetail` written when credentials are valid but the
gateway log shows no connector confirmation. -/
def apiTokenOkDetail (api : ApiResult) : String :=
  String.intercalate "\n"
    ["飞书凭证有效 (" ++ api.detail ++ ")",
     "但 Gateway 日志中未发现飞书 channel 连接成功的记录。",
     "可能原因：",
     "· 飞书开放平台 → 事件与回调 → 未选择\"长连接\"模式",
     "· 飞书开放平台 → 事件与回调 → 未添加 im.message.receive_v1 事件",
     "· openclaw.json 中 channels.feishu 配置有误",
     "· Gateway 版本不支持飞书长连接"]

/-- Method 3 of `doHealthCheck`: fold the direct Feishu API result into the
state (detail only) and the `healthDetails` trail. -/
def applyDirectApi (st : GwState) (api : ApiResult) : GwState × List String :=
  let d := ["飞书 API 直连: " ++ api.detail]
  if api.tokenOk then
    ({ st with feishuDetail := some (apiTokenOkDetail api) },
     d ++ ["飞书凭证有效，但 Gateway 日志未报告 channel 已连接"])
  else
    ({ st with feishuDetail := some ("飞书凭证验证失败: " ++ api.detail) }, d)

/-- The final liveness section of `doHealthCheck` (`gatewayAlive` handling). -/
def livenessStep (st : GwState) (gatewayAlive processAlive : Bool) : GwState × List String :=
  if gatewayAlive then
    (if st.status ≠ .running then { st with status := .running } else st, [])
  else if processAlive then (st, ["进程存在但端口未响应（可能启动中）"])
  else if st.status = .running then
    ({ st with status := .error, error := some "健康检查失败 — Gateway 可能已退出",
               feishuConnected := false }, [])
  else (st, [])

/-- The per-tick inputs of `doHealthCheck`: whether the `/health` probe
returned a 2xx body (`httpGet` resolves `null` on every failure, so the
`catch` branch is unreachable), the `readGatewayLogFile()` result, and the
direct Feishu API result. -/
structure HealthInputs where
  httpOk : Bool
  logPath : String
  logLines : List String
  totalLines : Nat
  api : ApiResult
deriving Repr

/-- Model of `doHealthCheck()`: one health-check tick.  `processAlive` is
`this.process && !this.process.killed`. -/
def doHealthCheck (st : GwState) (processAlive : Bool) (inp : HealthInputs) : GwState :=
  let d1 := if inp.httpOk then ["Gateway 端口 18789 → 响应正常"] else ["Gateway 端口 18789 → 无响应"]
  let a := analyzeGatewayLog st inp.logPath inp.logLines inp.totalLines
  let b := if a.2.2 then (a.1, ([] : List String)) else applyDirectApi a.1 inp.api
  let c := livenessStep b.1 inp.httpOk processAlive
  { c.1 with healthCheckDetail := some (String.intercalate "\n" (d1 ++ a.2.1 ++ b.2 ++ c.2)) }

/- ===================== §5 Process supervisor ===================== -/

/-- The in-memory fields of the `GatewayManager` instance used by the
lifecycle operations: the owned child (`this.process`, collapsed to its pid;
`none` both when it is `null` and when it has already been killed), the
shared state record, the health-check interval flag and `this.startTime`. -/
structure Supervisor where
  proc : Option Nat
  state : GwState
  healthOn : Bool
  startTime : Nat
deriving DecidableEq, Repr

/-- What `detectEngine()` finds: the resolved binary path and the version
label it stores (already formatted, e.g. `1.2.3 (内置)` for bundled). -/
structure DetectResult where
  path : String
  versionLabel : Option String
deriving Repr

/-- Outcome of the two filesystem probes that `getBundledNpmPath()` runs on
the fixed path `bundled/node/bin/npm` under the resources directory:
`pathExists` is `fs.existsSync(p)`, and `lstat` is the `fs.lstatSync(p)`
result — `some isLink` when the call succeeds (`isLink` being
`.isSymbolicLink()`, true e.g. for a dangling symlink), `none` when it
throws `ENOENT` because the path is absent entirely. -/
structure NpmProbe where
  pathExists : Bool
  lstat : Option Bool
deriving DecidableEq, Repr

/-- The filesystem/environment facts the lifecycle operations consume:
whether `fs.existsSync` holds of a cached engine path, what a fresh
`detectEngine()` scan finds (`none` = no bundled/local/global binary), and
the probe outcome for the bundled npm path. -/
structure Env where
  enginePathExists : String → Bool
  detect : Option DetectResult
  npmProbe : NpmProbe

/-- The `updateState` performed by `detectEngine()`: on success it records
`installed` plus version/path; on failure it clears all three fields.
Returns the updated state and `detect.path || null`. -/
def detectEngine (st : GwState) (env : Env) : GwState × Option String :=
  match env.detect with
  | some d =>
    ({ st with engineStatus := .installed, engineVersion := d.versionLabel,
               enginePath := some d.path }, some d.path)
  | none =>
    ({ st with engineStatus := .not_installed, engineVersion := none, enginePath := none }, none)

/-- Model of `getGatewayPath()`: reuse `this.state.enginePath` when it still exists on
disk, otherwise re-run `detectEngine()`. -/
def getGatewayPath (st : GwState) (env : Env) : GwState × Option String :=
  match st.enginePath with
  | some p => if env.enginePathExists p then (st, some p) else detectEngine st env
  | none => detectEngine st env

/-- The guard `if (this.process)` at the top of `stop()`: whether a graceful
SIGTERM (with SIGKILL escalation) is sent to an owned child at all. -/
def stopKillsOwned (s : Supervisor) : Bool :=
  s.proc.isSome

/-- Model of `getBundledNpmPath()`:
`(fs.existsSync(p) || fs.lstatSync(p).isSymbolicLink()) ? p : null`.  The
`fs.lstatSync` call is NOT guarded: when `existsSync` is false and the path
is absent entirely, `lstatSync` throws `ENOENT`, which no caller on the
`stop()` path catches.  (The sibling probes `getBundledNodePath` and
`getBundledOpenClawPath` use `existsSync` alone and cannot throw.)  The
returned path stands for `getBundledPath('node', 'bin', 'npm')`. -/
def getBundledNpmPath (probe : NpmProbe) : Except String (Option String) :=
  if probe.pathExists then .ok (some "bundled/node/bin/npm")
  else
    match probe.lstat with
    | some isLink => .ok (if isLink then some "bundled/node/bin/npm" else none)
    | none => .error "ENOENT: no such file or directory, lstat bundled/node/bin/npm"

/-- The exception (if any) escaping `buildSharedEnv` → `buildFullPath` →
`findExecutable('npm')` → `getBundledNpmPath`.  Every other probe on that
path is guarded — `existsSync`-only checks, or `which`/`readdirSync` calls
wrapped in try/catch — so the bundled-npm probe is the only uncaught
exception source in the environment construction. -/
def buildSharedEnvThrown (env : Env) : Option String :=
  match getBundledNpmPath env.npmProbe with
  | .error e => some e
  | .ok _ => none

/-- The condition under which the bundled-npm probe throws: `existsSync`
false and `lstatSync` failing. -/
def npmProbeThrows (p : NpmProbe) : Bool :=
  !p.pathExists && p.lstat.isNone

/-- The result of a `stop()` call: the supervisor fields after it, plus the
exception that escaped to the caller, if any. -/
structure StopResult where
  sup : Supervisor
  thrown : Option String
deriving DecidableEq, Repr

/-- The first half of `stop()`: clear the health-check interval and
terminate the owned child if any.  During the wait the child's exit handler
nulls `this.process` and — for the SIGTERM/SIGKILL signal-kill, whose exit
code is `null` — records `stopped` with `feishuConnected = false`.  (A
child that instead manages to exit with a non-zero code inside the grace
window would record `error` first; no claim depends on that corner.) -/
def killStep (s : Supervisor) : Supervisor :=
  if s.proc.isSome then
    { s with healthOn := false, proc := none,
             state := { s.state with status := .stopped, feishuConnected := false } }
  else { s with healthOn := false, proc := none }

/-- The second half of `stop()`: resolve the engine path; when one
resolved, build the shared environment — the only step with an uncaught
throwing path, via the bundled-npm probe — and run the best-effort external
`gateway stop` / `launchctl bootout` commands (caught inside `exec`,
state-free); finally record `stopped` with `feishuConnected = false`.  When
`buildSharedEnv` throws, that final write is skipped and the exception
propagates to the caller. -/
def stopFinish (s1 : Supervisor) (env : Env) : StopResult :=
  let r := getGatewayPath s1.state env
  match r.2 with
  | none =>
    { sup := { s1 with state := { r.1 with status := .stopped, feishuConnected := false } },
      thrown := none }
  | some _ =>
    match buildSharedEnvThrown env with
    | some e => { sup := { s1 with state := r.1 }, thrown := some e }
    | none =>
      { sup := { s1 with state := { r.1 with status := .stopped, feishuConnected := false } },
        thrown := none }

/-- Model of `stop()`: the kill step followed by the resolve / external
commands / final state write (see `killStep` and `stopFinish`). -/
def stop (s : Supervisor) (env : Env) : StopResult :=
  stopFinish (killStep s) env

/-- Outcome of the portion of `start()` that precedes the `try` block: an
immediate return when already starting/running, the typed
`Error('OpenClaw 引擎未安装')` thrown when no executable resolves, or entry
into the try block (`.proceed`) — all preparation commands (Steps 1–8) and
the `spawn` (Step 9) occur only after a `.proceed` result. -/
inductive StartOutcome where
  | alreadyActive (s : Supervisor)
  | engineMissing (s : Supervisor) (thrown : String)
  | proceed (s : Supervisor) (gatewayPath : String)
deriving DecidableEq, Repr

/-- The prefix of `start()` up to and including
`this.updateState({ status: 'starting', error: undefined })`. -/
def startCheck (s : Supervisor) (env : Env) : StartOutcome :=
  if s.state.status = .running ∨ s.state.status = .starting then .alreadyActive s
  else
    let r := getGatewayPath s.state env
    match r.2 with
    | none =>
      .engineMissing
        { s with state := { r.1 with status := .error,
                                     error := some "OpenClaw 引擎未安装。请先点击「安装引擎」按钮。",
                                     engineStatus := .not_installed } }
        "OpenClaw 引擎未安装"
    | some p =>
      .proceed { s with state := { r.1 with status := .starting, error := none } } p

/-- The exit-code-specific diagnostic prefix built by the `exit` handler. -/
def exitBase (code : Int) : String :=
  let b := "Gateway 异常退出 (退出码: " ++ toString code ++ ")"
  if code = 127 then b ++ "\n原因: 命令未找到"
  else if code = 1 then b ++ "\n原因: 一般性错误 — 可能是配置文件有误或端口被占用"
  else b

/-- The full `errDetail` of the `exit` handler: the code-specific prefix plus
the tail (last 800 chars) of the captured stderr when it is non-blank. -/
def exitDetail (code : Int) (recentStderr : String) : String :=
  if trimStr recentStderr ≠ "" then
    exitBase code ++ "\n\n--- 错误日志 ---\n" ++ takeRightStr (trimStr recentStderr) 800
  else exitBase code

/-- The `this.process.on('exit', ...)` handler installed by `start()`:
null the process, stop the health-check interval, and transition to
`error` (non-zero, non-null code) or `stopped` (zero or null code). -/
def onProcessExit (s : Supervisor) (code : Option Int) (recentStderr : String) : Supervisor :=
  let s1 : Supervisor := { s with proc := none, healthOn := false }
  match code with
  | some c =>
    if c ≠ 0 then
      { s1 with state := { s1.state with status := .error,
                                         error := some (exitDetail c recentStderr),
                                         feishuConnected := false } }
    else { s1 with state := { s1.state with status := .stopped, feishuConnected := false } }
  | none => { s1 with state := { s1.state with status := .stopped, feishuConnected := false } }

/-- The 15-second timeout branch of `waitForReady`: if the owned process is
still alive, declare `running` and resolve (`true`); otherwise reject
(`false`) with a timeout error. -/
def waitForReadyTimeout (s : Supervisor) : Supervisor × Bool :=
  if s.proc.isSome then ({ s with state := { s.state with status := .running } }, true)
  else (s, false)

/-- The snapshot assembled by `getState()` (uptime and recentLogs, computed
from `startTime`/log buffer, are not needed by any claim and omitted). -/
structure StateView where
  status : GatewayStatus
  pid : Option Nat
deriving DecidableEq, Repr

/-- Model of `getState()` projection: the live `this.process?.pid` is injected into
the returned snapshot. -/
def getState (s : Supervisor) : StateView :=
  { status := s.state.status, pid := s.proc }

/-- A health-check tick at the supervisor level: `processAlive` is derived
from the owned-process handle. -/
def healthTick (s : Supervisor) (inp : HealthInputs) : Supervisor :=
  { s with state := doHealthCheck s.state s.proc.isSome inp }

/- ===================== §6 parsePluginList ===================== -/

/-- Consume the `[0-9;]*m` part of an ANSI color sequence (after `ESC[`). -/
def dropAnsiSeq : List Char → Option (List Char)
  | [] => none
  | c :: rest =>
    if c = 'm' then some rest
    else if c.isDigit || c = ';' then dropAnsiSeq rest
    else none

/-- Fueled worker for `stripAnsi`; each step consumes at least one input
character, so `fuel = input length` never runs out. -/
def stripAnsiAux : Nat → List Char → List Char
  | 0, cs => cs
  | _ + 1, [] => []
  | fuel + 1, c :: rest =>
    if c = '\x1b' then
      match rest with
      | '[' :: rest2 =>
        match dropAnsiSeq rest2 with
        | some rest' => stripAnsiAux fuel rest'
        | none => c :: stripAnsiAux fuel rest
      | _ => c :: stripAnsiAux fuel rest
    else c :: stripAnsiAux fuel rest

/-- Model of `output.replace(/\x1B\[[0-9;]*m/g, '')`. -/
def stripAnsi (cs : List Char) : List Char :=
  stripAnsiAux cs.length cs

/-- The character class `[a-z0-9_-]` under the `i` flag. -/
def extIdChar (c : Char) : Bool :=
  (decide ('a' ≤ c) && decide (c ≤ 'z')) || (decide ('A' ≤ c) && decide (c ≤ 'Z')) ||
    (decide ('0' ≤ c) && decide (c ≤ '9')) || decide (c = '_') || decide (c = '-')

/-- One attempt of `/extensions\/([a-z0-9_-]+)\//i` at the head of `cs`:
the literal (case-insensitively), then a non-empty run of id characters,
then `/`.  Returns the capture (original case) and the rest of the input
after the whole match. -/
def tryExtAt (cs : List Char) : Option (String × List Char) :=
  if ciStarts "extensions/" cs then
    let rest := cs.drop 11
    let run := rest.takeWhile extIdChar
    if run.isEmpty then none
    else if decide ((rest.drop run.length).head? = some '/') then
      some (String.mk run, rest.drop (run.length + 1))
    else none
  else none

/-- Fueled worker for `collectExtIds`; every step consumes at least one
character of input. -/
def collectExtIdsAux : Nat → List Char → List String
  | 0, _ => []
  | _ + 1, [] => []
  | fuel + 1, cs@(_ :: t) =>
    match tryExtAt cs with
    | some (i, rest) => i :: collectExtIdsAux fuel rest
    | none => collectExtIdsAux fuel t

/-- Model of `cleaned.matchAll(/extensions\/([a-z0-9_-]+)\//gi)`, captures in order. -/
def collectExtIds (cs : List Char) : List String :=
  collectExtIdsAux cs.length cs

/-- JS `Set` insertion: keep first occurrence, preserve insertion order. -/
def insertUnique (l : List String) (x : String) : List String :=
  if x ∈ l then l else l ++ [x]

/-- Deduplicate keeping the first occurrence (JS `Set` iteration order). -/
def dedupFirst (l : List String) : List String :=
  l.foldl insertUnique []

/-- Leftmost match of `/extensions\/([a-z0-9_-]+)\//i` (JS `String.match`),
used by `finalizePlugin` on the accumulated source text. -/
def extScan : List Char → Option String
  | [] => none
  | cs@(_ :: t) =>
    match tryExtAt cs with
    | some (i, _) => some i
    | none => extScan t

/-- First `extensions/<id>/` capture of a string, if any. -/
def firstExtId (s : String) : Option String :=
  extScan s.toList

/-- A finished plugin record (`{ name, id, status, description }`). -/
structure PluginRec where
  name : String
  id : String
  status : String
  description : String
deriving DecidableEq, Repr

/-- The in-progress `currentPlugin` record of the parsing loop. -/
structure CurPlugin where
  name : String
  id : String
  status : String
  source : String
  description : String
deriving DecidableEq, Repr

/-- The mutable loop state of `parsePluginList`: the output array, the
`seen` set (insertion-ordered), and `currentPlugin`. -/
structure ParseAcc where
  plugins : List PluginRec
  seen : List String
  cur : Option CurPlugin
deriving DecidableEq, Repr

/-- Model of `/^(loaded|disabled|error)$/i.test(p)`. -/
def statusToken (p : String) : Bool :=
  let l := toLowerStr p
  decide (l = "loaded") || decide (l = "disabled") || decide (l = "error")

/-- The table border characters replaced by `|` in the line loop. -/
def borderChar (c : Char) : Bool :=
  ("│┌┐└┘├┤┬┴┼─═╮╯╰╭".toList).contains c

/-- Border-normalize a raw line and trim it. -/
def normalizeLine (raw : String) : String :=
  trimStr (String.mk (raw.toList.map (fun c => if borderChar c then '|' else c)))

/-- Model of `/^[|\-=\s]+$/.test(line)` for the (already trimmed) line; the empty
case is caught separately by `!line`. -/
def fillerLine (line : String) : Bool :=
  line.toList.all (fun c => decide (c = '|') || decide (c = '-') || decide (c = '=') || c.isWhitespace)

/-- Model of `/^\|?\s*(Name|Plugin)\s*\|/i.test(line)`: an optional leading `|`,
whitespace, `Name` or `Plugin` (case-insensitive), whitespace, then `|`. -/
def headerLine (line : String) : Bool :=
  let cs := line.toList
  let cs := match cs with
    | '|' :: t => t
    | _ => cs
  let cs := cs.dropWhile Char.isWhitespace
  (ciStarts "name" cs && decide (((cs.drop 4).dropWhile Char.isWhitespace).head? = some '|')) ||
  (ciStarts "plugin" cs && decide (((cs.drop 6).dropWhile Char.isWhitespace).head? = some '|'))

/-- The continuation-line description test
`/openclaw|plugin|channel|tool|memory|voice|workflow|oauth|generate|manage|generic/i`. -/
def descKeyword (s : String) : Bool :=
  let l := toLowerStr s
  strContains l "openclaw" || strContains l "plugin" || strContains l "channel" ||
    strContains l "tool" || strContains l "memory" || strContains l "voice" ||
    strContains l "workflow" || strContains l "oauth" || strContains l "generate" ||
    strContains l "manage" || strContains l "generic"

/-- The `realId` computed by `finalizePlugin`: the first `extensions/<id>/`
capture of the accumulated source text; else, for a non-empty table id, the
first candidate identifier related to it by prefix; else the table id. -/
def resolveRealId (plugin : CurPlugin) (extensionIds : List String) : String :=
  match firstExtId plugin.source with
  | some i => i
  | none =>
    if plugin.id ≠ "" then
      match extensionIds.find? (fun e => isPrefixOfStr plugin.id e || isPrefixOfStr e plugin.id) with
      | some e => e
      | none => plugin.id
    else plugin.id

/-- The `cleanName` of `finalizePlugin`:
`plugin.name.replace(/^@openclaw\/\s*/, '').trim() || realId`. -/
def cleanNameOf (plugin : CurPlugin) (realId : String) : String :=
  let cleaned :=
    trimStr (if isPrefixOfStr "@openclaw/" plugin.name then
      dropWhileStr (plugin.name.drop 10) Char.isWhitespace
     else plugin.name)
  if cleaned = "" then realId else cleaned

/-- Model of `finalizePlugin`: correct the id from the accumulated source path, else
by prefix match against the extension-id set, clean the name, and push the
record unless its final id was already seen (or empty). -/
def finalizePlugin (plugin : CurPlugin) (plugins : List PluginRec) (seen : List String)
    (extensionIds : List String) : List PluginRec × List String :=
  let realId := resolveRealId plugin extensionIds
  if realId ≠ "" ∧ realId ∉ seen then
    (plugins ++ [{ name := cleanNameOf plugin realId, id := realId, status := plugin.status,
                   description := plugin.description }],
     seen ++ [realId])
  else (plugins, seen)

/-- The guarded save `if (currentPlugin && currentPlugin.id) finalizePlugin(...)`,
performed both when a new status row starts and after the line loop. -/
def flushCur (cur? : Option CurPlugin) (plugins : List PluginRec) (seen : List String)
    (extIds : List String) : List PluginRec × List String :=
  match cur? with
  | some cur =>
    if cur.id ≠ "" then finalizePlugin cur plugins seen extIds else (plugins, seen)
  | none => (plugins, seen)

/-- One iteration of the line loop of `parsePluginList`. -/
def processRow (extIds : List String) (acc : ParseAcc) (rawLine : String) : ParseAcc :=
  let line := normalizeLine rawLine
  if line = "" ∨ fillerLine line then acc
  else if headerLine line then acc
  else
    let parts := ((splitOnC line '|').map trimStr).filter (fun s => s ≠ "")
    if parts.length < 2 then acc
    else
      match parts.findIdx? statusToken with
      | some statusIdx =>
        let r := flushCur acc.cur acc.plugins acc.seen extIds
        let nm := if statusIdx ≥ 1 then parts.getD 0 "" else ""
        let pid := if statusIdx ≥ 2 then parts.getD (statusIdx - 1) ""
                   else if statusIdx ≥ 1 then parts.getD 0 "" else ""
        { plugins := r.1, seen := r.2,
          cur := some { name := nm, id := pid, status := toLowerStr (parts.getD statusIdx ""),
                        source := trimStr (String.intercalate " " (parts.drop (statusIdx + 1))),
                        description := "" } }
      | none =>
        match acc.cur with
        | none => acc
        | some cur =>
          let joined := String.intercalate " " parts
          if strContains joined "extensions/" then
            { acc with cur := some { cur with source := cur.source ++ " " ++ joined } }
          else if descKeyword joined then
            { acc with cur := some (if cur.description = "" then { cur with description := joined } else cur) }
          else
            let head0 := parts.getD 0 ""
            let cur := if endsWithStr cur.name "-" || endsWithStr cur.name "/" then
                         { cur with name := cur.name ++ head0 } else cur
            let cur := if endsWithStr cur.id "-" || endsWithStr cur.id "/" then
                         { cur with id := cur.id ++ head0 } else cur
            { acc with cur := some cur }

/-- Model of `│` or `|`: the `[^│|]` exclusion class in the fallback status regex. -/
def fbBar (c : Char) : Bool :=
  decide (c = '│') || decide (c = '|')

/-- Does one of `loaded` / `disabled` / `error` match (case-insensitively)
at the head of `cs`?  Alternatives are tried in the regex's order. -/
def kwAt (cs : List Char) : Option String :=
  if ciStarts "loaded" cs then some "loaded"
  else if ciStarts "disabled" cs then some "disabled"
  else if ciStarts "error" cs then some "error"
  else none

/-- The keyword match chosen by greedy `[^│|]*` backtracking: the rightmost
position in the segment at which one of the alternatives matches. -/
def lastKw : List Char → Option String
  | [] => none
  | c :: t =>
    match lastKw t with
    | some k => some k
    | none => kwAt (c :: t)

/-- One attempt of the fallback regex
``extensions/<extId>/[^│|]*(?:│|\|)[^│|]*(loaded|disabled|error)`` (flag `i`)
at the head of `cs`: the literal, then the run up to the first bar, a bar,
and the capture somewhere in the next bar-free segment (greedy, so the
rightmost occurrence). -/
def fbTryAt (pat : List Char) (cs : List Char) : Option String :=
  if decide ((cs.take pat.length).map Char.toLower = pat.map Char.toLower) then
    let rest := cs.drop pat.length
    let afterRun := rest.dropWhile (fun c => !fbBar c)
    match afterRun with
    | [] => none
    | _ :: afterBar => lastKw (afterBar.takeWhile (fun c => !fbBar c))
  else none

/-- Leftmost-match scan for the fallback status regex. -/
def fbScan (pat : List Char) : List Char → Option String
  | [] => none
  | cs@(_ :: t) =>
    match fbTryAt pat cs with
    | some k => some k
    | none => fbScan pat t

/-- Model of `cleaned.match(new RegExp(`extensions/<extId>/[^│|]*(?:│|\\|)[^│|]*(loaded|disabled|error)`, 'i'))`,
returning the lower-cased capture. -/
def fallbackStatus (cleaned : String) (extId : String) : Option String :=
  fbScan ("extensions/" ++ extId ++ "/").toList cleaned.toList

/-- The minimal record synthesized from the candidate identifier set when
table parsing recovered too few rows. -/
def fallbackRecord (cleaned : String) (extId : String) : PluginRec :=
  { name := extId, id := extId,
    status := match fallbackStatus cleaned extId with
              | some st => st
              | none => "disabled",
    description := "" }

/-- The `plugins.length < 5` fallback loop over the extension-id set. -/
def fallbackFill (cleaned : String) (extIds : List String)
    (ps : List PluginRec) (sn : List String) : List PluginRec × List String :=
  extIds.foldl
    (fun acc extId =>
      if extId ∈ acc.2 then acc
      else (acc.1 ++ [fallbackRecord cleaned extId], acc.2 ++ [extId]))
    (ps, sn)

/-- Model of `parsePluginList(output)`. -/
def parsePluginList (output : String) : List PluginRec :=
  let cleaned := String.mk (stripAnsi output.toList)
  let extIds := dedupFirst (collectExtIds cleaned.toList)
  let acc := (splitOnC cleaned '\n').foldl (processRow extIds)
    { plugins := [], seen := [], cur := none }
  let r := flushCur acc.cur acc.plugins acc.seen extIds
  if r.1.length < 5 ∧ extIds.length > 0 then (fallbackFill cleaned extIds r.1 r.2).1
  else r.1

/- ===================== §6b Concrete fixtures ===================== -/

/-- The initial `this.state` of the manager (engine already detected as
installed, so lifecycle operations that re-resolve are exercised through
`Env`). -/
def stBase : GwState :=
  { status := .stopped, error := none, feishuConnected := false, feishuDetail := none,
    healthCheckDetail := none, modelConfigured := false, engineStatus := .installed,
    engineVersion := none, enginePath := none }

/-- A quiescent supervisor: no owned child, no health-check interval. -/
def supBase : Supervisor :=
  { proc := none, state := stBase, healthOn := false, startTime := 0 }

/-- A baseline health-check tick: probe answered, log file empty, direct API
check failed with a timeout. -/
def inpBase : HealthInputs :=
  { httpOk := true, logPath := "/tmp/openclaw/openclaw-2026-01-01.log", logLines := [],
    totalLines := 0, api := { tokenOk := false, botOk := false, detail := "请求超时" } }

/-- An environment in which no engine executable resolves (and nothing is
bundled, so the bundled-npm path is absent entirely). -/
def envNoEngine : Env :=
  { enginePathExists := fun _ => false, detect := none,
    npmProbe := { pathExists := false, lstat := none } }

/-- An environment with a globally installed engine and an intact bundled
npm. -/
def envOk : Env :=
  { enginePathExists := fun _ => true,
    detect := some { path := "/usr/local/bin/openclaw", versionLabel := some "1.0.0" },
    npmProbe := { pathExists := true, lstat := some false } }

/-- An environment with a globally installed engine but no bundled
distribution at all: `bundled/node/bin/npm` is absent entirely, so the
unguarded `fs.lstatSync` inside `getBundledNpmPath` throws `ENOENT`. -/
def envCrash : Env :=
  { enginePathExists := fun _ => true,
    detect := some { path := "/usr/local/bin/openclaw", versionLabel := some "1.0.0" },
    npmProbe := { pathExists := false, lstat := none } }

/-- A supervisor with no owned child whose last run ended in `error` with a
stale connected flag and a cached engine path. -/
def supErr : Supervisor :=
  { proc := none,
    state := { stBase with status := .error, feishuConnected := true,
                           enginePath := some "/usr/local/bin/openclaw" },
    healthOn := false, startTime := 0 }

/-- A truncated-id row whose accumulated source text carries the
`extensions/bluebubbles/` path fragment. -/
def curTruncA : CurPlugin :=
  { name := "@openclaw/bluebubbles", id := "bluebubb", status := "loaded",
    source := "extensions/bluebubbles/index.ts", description := "" }

/-- The same truncated-id row with no usable source text, exercising the
prefix-match and table-id fallbacks. -/
def curTruncB : CurPlugin :=
  { curTruncA with source := "" }

/- ===================== §7 Helper lemmas ===================== -/

set_option maxRecDepth 200000

theorem hasSub_iff (pat hay : List Char) : hasSub pat hay = true ↔ pat <:+: hay := by
  induction hay with
  | nil => simp [hasSub, List.infix_nil, List.isEmpty_iff]
  | cons c t ih =>
    simp only [hasSub, Bool.or_eq_true, List.isPrefixOf_iff_prefix, ih, List.infix_cons_iff]

theorem strContains_iff (hay pat : String) :
    strContains hay pat = true ↔ pat.toList <:+: hay.toList :=
  hasSub_iff _ _

theorem toList_append (a b : String) : (a ++ b).toList = a.toList ++ b.toList :=
  String.data_append a b

theorem strContains_append_left (a b pat : String) (h : strContains a pat = true) :
    strContains (a ++ b) pat = true := by
  rw [strContains_iff] at h ⊢
  rw [toList_append]
  exact h.trans ((List.prefix_append _ _).isInfix)

theorem strContains_append_right (a b pat : String) (h : strContains b pat = true) :
    strContains (a ++ b) pat = true := by
  rw [strContains_iff] at h ⊢
  rw [toList_append]
  exact h.trans ((List.suffix_append _ _).isInfix)

theorem strContains_suffix_self (x pat : String) : strContains (x ++ pat) pat = true := by
  rw [strContains_iff, toList_append]
  exact (List.suffix_append _ _).isInfix

theorem toList_eq_nil_iff (s : String) : s.toList = [] ↔ s = "" := by
  constructor
  · intro h
    exact String.ext h
  · intro h
    rw [h]
    rfl

theorem strContains_empty_hay (pat : String) (hp : pat ≠ "") :
    strContains "" pat = false := by
  cases hpl : pat.toList with
  | nil => exact absurd ((toList_eq_nil_iff pat).1 hpl) hp
  | cons c t =>
    simp only [strContains, hasSub, hpl]
    simp [String.toList] at hpl
    simp [strContains, hasSub, String.toList, hpl]

theorem livenessStep_feishuDetail (st : GwState) (g p : Bool) :
    (livenessStep st g p).1.feishuDetail = st.feishuDetail := by
  unfold livenessStep
  by_cases hg : g <;> by_cases hp : p <;> by_cases hs : st.status = .running <;>
    simp [hg, hp, hs]

theorem livenessStep_healthDetail (st : GwState) (g p : Bool) :
    (livenessStep st g p).1.healthCheckDetail = st.healthCheckDetail := by
  unfold livenessStep
  by_cases hg : g <;> by_cases hp : p <;> by_cases hs : st.status = .running <;>
    simp [hg, hp, hs]

theorem livenessStep_feishu (st : GwState) (g p : Bool) :
    (livenessStep st g p).1.feishuConnected =
      if !g && !p && decide (st.status = .running) then false else st.feishuConnected := by
  unfold livenessStep
  by_cases hg : g <;> by_cases hp : p <;> by_cases hs : st.status = .running <;>
    simp [hg, hp, hs]

theorem livenessStep_status (st : GwState) (g p : Bool) :
    (livenessStep st g p).1.status =
      if g then .running
      else if !p && decide (st.status = .running) then .error
      else st.status := by
  unfold livenessStep
  by_cases hg : g <;> by_cases hp : p <;> by_cases hs : st.status = .running <;>
    simp [hg, hp, hs]

theorem livenessStep_error (st : GwState) (g p : Bool) :
    (livenessStep st g p).1.error =
      if !g && !p && decide (st.status = .running) then some "健康检查失败 — Gateway 可能已退出"
      else st.error := by
  unfold livenessStep
  by_cases hg : g <;> by_cases hp : p <;> by_cases hs : st.status = .running <;>
    simp [hg, hp, hs]

theorem applyDirectApi_fields (st : GwState) (a : ApiResult) :
    (applyDirectApi st a).1.feishuConnected = st.feishuConnected ∧
    (applyDirectApi st a).1.status = st.status ∧
    (applyDirectApi st a).1.error = st.error ∧
    (applyDirectApi st a).1.healthCheckDetail = st.healthCheckDetail := by
  unfold applyDirectApi
  by_cases h : a.tokenOk <;> simp [h]

theorem applyDirectApi_detail (st : GwState) (a : ApiResult) :
    (applyDirectApi st a).1.feishuDetail =
      some (if a.tokenOk then apiTokenOkDetail a else "飞书凭证验证失败: " ++ a.detail) := by
  unfold applyDirectApi
  by_cases h : a.tokenOk <;> simp [h]

theorem feishuLines_ne_of_contains {ls : List String} {pat : String}
    (h : strContains (allFeishuText ls) pat = true) (hp : pat ≠ "") :
    (tickFeishuLines ls).isEmpty = false ∧ ls.isEmpty = false := by
  cases hfl : tickFeishuLines ls with
  | nil =>
    exfalso
    have htext : allFeishuText ls = "" := by
      unfold allFeishuText
      rw [hfl]
      decide
    rw [htext, strContains_empty_hay pat hp] at h
    exact Bool.false_ne_true h
  | cons a t =>
    constructor
    · simp [hfl]
    · cases hls : ls with
      | nil =>
        exfalso
        rw [hls] at hfl
        simp [tickFeishuLines] at hfl
      | cons b u => simp

theorem active_nonempty {ls : List String} (hA : hasActiveSignal ls = true) :
    (tickFeishuLines ls).isEmpty = false ∧ ls.isEmpty = false := by
  simp only [hasActiveSignal, Bool.or_eq_true] at hA
  rcases hA with ((h | h) | h) | h <;>
    exact feishuLines_ne_of_contains h (by decide)

theorem conn_nonempty {ls : List String} (hC : hasConnectedSignal ls = true) :
    (tickFeishuLines ls).isEmpty = false ∧ ls.isEmpty = false := by
  simp only [hasConnectedSignal, Bool.or_eq_true] at hC
  rcases hC with (((h | h) | h) | h) | h <;>
    exact feishuLines_ne_of_contains h (by decide)

theorem perm_nonempty {ls : List String} (hP : hasPermissionWarning ls = true) :
    (tickFeishuLines ls).isEmpty = false ∧ ls.isEmpty = false :=
  feishuLines_ne_of_contains hP (by decide)

theorem fatal_nonempty {ls : List String} (hF : hasFatalError ls = true) :
    (tickFeishuLines ls).isEmpty = false ∧ ls.isEmpty = false := by
  simp only [hasFatalError, Bool.or_eq_true] at hF
  rcases hF with ((h | h) | h) | h <;>
    exact feishuLines_ne_of_contains h (by decide)

theorem analyze_detected (st : GwState) (p : String) (ls : List String) (n : Nat) :
    (analyzeGatewayLog st p ls n).2.2 = logVerdict ls := by
  unfold analyzeGatewayLog logVerdict
  by_cases h1 : ls.isEmpty <;> by_cases h2 : (tickFeishuLines ls).isEmpty <;>
    by_cases hA : hasActiveSignal ls <;> by_cases hC : hasConnectedSignal ls <;>
    by_cases hF : hasFatalError ls <;> by_cases hP : hasPermissionWarning ls <;>
    simp [h1, h2, hA, hC, hF, hP]

theorem analyze_preserves (st : GwState) (p : String) (ls : List String) (n : Nat) :
    (analyzeGatewayLog st p ls n).1.status = st.status ∧
    (analyzeGatewayLog st p ls n).1.error = st.error ∧
    (analyzeGatewayLog st p ls n).1.healthCheckDetail = st.healthCheckDetail := by
  unfold analyzeGatewayLog
  by_cases h1 : ls.isEmpty <;> by_cases h2 : (tickFeishuLines ls).isEmpty <;>
    by_cases hA : hasActiveSignal ls <;> by_cases hC : hasConnectedSignal ls <;>
    by_cases hF : hasFatalError ls <;> by_cases hP : hasPermissionWarning ls <;>
    simp [h1, h2, hA, hC, hF, hP]

theorem analyze_no_verdict (st : GwState) (p : String) (ls : List String) (n : Nat)
    (h : logVerdict ls = false) :
    (analyzeGatewayLog st p ls n).1 = st := by
  unfold logVerdict at h
  unfold analyzeGatewayLog
  by_cases h1 : ls.isEmpty <;> by_cases h2 : (tickFeishuLines ls).isEmpty <;>
    by_cases hA : hasActiveSignal ls <;> by_cases hC : hasConnectedSignal ls <;>
    by_cases hF : hasFatalError ls <;> by_cases hP : hasPermissionWarning ls <;>
    simp_all

theorem analyze_active_conn (st : GwState) (p : String) (ls : List String) (n : Nat)
    (h : (hasActiveSignal ls || hasConnectedSignal ls) = true) :
    (analyzeGatewayLog st p ls n).1.feishuConnected = true := by
  have hne : (tickFeishuLines ls).isEmpty = false ∧ ls.isEmpty = false := by
    rcases Bool.or_eq_true_iff.1 h with hA | hC
    · exact active_nonempty hA
    · exact conn_nonempty hC
  unfold analyzeGatewayLog
  by_cases hP : hasPermissionWarning ls <;>
    simp [hne.1, hne.2, h, hP]

theorem analyze_perm_only (st : GwState) (p : String) (ls : List String) (n : Nat)
    (hP : hasPermissionWarning ls = true) (hA : hasActiveSignal ls = false)
    (hC : hasConnectedSignal ls = false) (hF : hasFatalError ls = false) :
    (analyzeGatewayLog st p ls n).1 =
      { st with feishuConnected := true, feishuDetail := some "飞书已连接 ⚠️ 部分权限缺失" } := by
  have hne := perm_nonempty hP
  unfold analyzeGatewayLog
  simp [hne.1, hne.2, hA, hC, hF, hP]

theorem livenessStep_lines (st : GwState) (g p : Bool) :
    (livenessStep st g p).2 =
      if !g && p then ["进程存在但端口未响应（可能启动中）"] else [] := by
  unfold livenessStep
  by_cases hg : g <;> by_cases hp : p <;> by_cases hs : st.status = .running <;>
    simp [hg, hp, hs]

theorem doHealth_feishu_of_no_verdict (st : GwState) (pa : Bool) (inp : HealthInputs)
    (h : logVerdict inp.logLines = false) :
    (doHealthCheck st pa inp).feishuConnected =
      (if !inp.httpOk && !pa && decide (st.status = .running) then false
       else st.feishuConnected) := by
  have hd := analyze_detected st inp.logPath inp.logLines inp.totalLines
  have hs := analyze_no_verdict st inp.logPath inp.logLines inp.totalLines h
  unfold doHealthCheck
  simp only [hd, h, Bool.false_eq_true, if_false, hs, livenessStep_feishu,
    (applyDirectApi_fields st inp.api).1, (applyDirectApi_fields st inp.api).2.1]

theorem doHealth_detail_of_no_verdict (st : GwState) (pa : Bool) (inp : HealthInputs)
    (h : logVerdict inp.logLines = false) :
    (doHealthCheck st pa inp).feishuDetail =
      some (if inp.api.tokenOk then apiTokenOkDetail inp.api
            else "飞书凭证验证失败: " ++ inp.api.detail) := by
  have hd := analyze_detected st inp.logPath inp.logLines inp.totalLines
  have hs := analyze_no_verdict st inp.logPath inp.logLines inp.totalLines h
  unfold doHealthCheck
  simp only [hd, h, Bool.false_eq_true, if_false, hs, livenessStep_feishuDetail,
    applyDirectApi_detail st inp.api]

theorem doHealth_b_state (st : GwState) (pa : Bool) (inp : HealthInputs) :
    let a := analyzeGatewayLog st inp.logPath inp.logLines inp.totalLines
    let b := if a.2.2 then (a.1, ([] : List String)) else applyDirectApi a.1 inp.api
    b.1.feishuConnected = a.1.feishuConnected ∧ b.1.status = st.status ∧
      b.1.error = st.error := by
  intro a b
  have ha : a = analyzeGatewayLog st inp.logPath inp.logLines inp.totalLines := rfl
  have hb : b = if a.2.2 then (a.1, ([] : List String)) else applyDirectApi a.1 inp.api := rfl
  have hp := analyze_preserves st inp.logPath inp.logLines inp.totalLines
  rw [hb]
  by_cases hdet : a.2.2
  · rw [if_pos hdet]
    exact ⟨rfl, by rw [ha]; exact hp.1, by rw [ha]; exact hp.2.1⟩
  · rw [if_neg hdet]
    refine ⟨(applyDirectApi_fields a.1 inp.api).1, ?_, ?_⟩
    · rw [(applyDirectApi_fields a.1 inp.api).2.1, ha]
      exact hp.1
    · rw [(applyDirectApi_fields a.1 inp.api).2.2.1, ha]
      exact hp.2.1

theorem doHealth_status (st : GwState) (pa : Bool) (inp : HealthInputs) :
    (doHealthCheck st pa inp).status =
      (if inp.httpOk then .running
       else if !pa && decide (st.status = .running) then .error
       else st.status) := by
  have hb := doHealth_b_state st pa inp
  unfold doHealthCheck
  simp only [livenessStep_status, hb.2.1]

theorem doHealth_error (st : GwState) (pa : Bool) (inp : HealthInputs) :
    (doHealthCheck st pa inp).error =
      (if !inp.httpOk && !pa && decide (st.status = .running) then
        some "健康检查失败 — Gateway 可能已退出"
       else st.error) := by
  have hb := doHealth_b_state st pa inp
  unfold doHealthCheck
  simp only [livenessStep_error, hb.2.1, hb.2.2]

theorem doHealth_feishu_active (st : GwState) (pa : Bool) (inp : HealthInputs)
    (h : (hasActiveSignal inp.logLines || hasConnectedSignal inp.logLines) = true)
    (hlive : ¬(inp.httpOk = false ∧ pa = false ∧ st.status = .running)) :
    (doHealthCheck st pa inp).feishuConnected = true := by
  have hb := doHealth_b_state st pa inp
  have hac := analyze_active_conn st inp.logPath inp.logLines inp.totalLines h
  unfold doHealthCheck
  simp only [livenessStep_feishu, hb.1, hb.2.1, hac]
  by_cases h1 : inp.httpOk <;> by_cases h2 : pa <;> by_cases h3 : st.status = .running <;>
    simp_all

theorem doHealth_perm_only (st : GwState) (pa : Bool) (inp : HealthInputs)
    (hP : hasPermissionWarning inp.logLines = true) (hA : hasActiveSignal inp.logLines = false)
    (hC : hasConnectedSignal inp.logLines = false) (hF : hasFatalError inp.logLines = false)
    (hlive : ¬(inp.httpOk = false ∧ pa = false ∧ st.status = .running)) :
    (doHealthCheck st pa inp).feishuConnected = true ∧
    (doHealthCheck st pa inp).feishuDetail = some "飞书已连接 ⚠️ 部分权限缺失" := by
  have hd := analyze_detected st inp.logPath inp.logLines inp.totalLines
  have hst := analyze_perm_only st inp.logPath inp.logLines inp.totalLines hP hA hC hF
  have hdet : logVerdict inp.logLines = true := by
    have hne := perm_nonempty hP
    unfold logVerdict
    simp [hne.1, hne.2, hP]
  unfold doHealthCheck
  simp only [hd, hdet, if_true, livenessStep_feishu, livenessStep_feishuDetail, hst]
  constructor
  · by_cases h1 : inp.httpOk <;> by_cases h2 : pa <;> by_cases h3 : st.status = .running <;>
      simp_all
  · simp

/-- The invariant maintained by the plugin-parsing loop: output ids are
pairwise distinct and every output id is registered in `seen`. -/
def pluginInv (r : List PluginRec × List String) : Prop :=
  (r.1.map (fun p => p.id)).Nodup ∧ ∀ p ∈ r.1, p.id ∈ r.2

theorem pluginInv_push {ps : List PluginRec} {sn : List String} (h : pluginInv (ps, sn))
    (rec : PluginRec) (hx : rec.id ∉ sn) : pluginInv (ps ++ [rec], sn ++ [rec.id]) := by
  constructor
  · rw [List.map_append, List.nodup_append]
    refine ⟨h.1, by simp, ?_⟩
    intro x hx1 hx2
    simp only [List.map_cons, List.map_nil, List.mem_singleton] at hx2
    rcases List.mem_map.1 hx1 with ⟨p, hp, hpid⟩
    exact hx (hx2 ▸ hpid ▸ h.2 p hp)
  · intro p hp
    rcases List.mem_append.1 hp with h1 | h2
    · exact List.mem_append.2 (Or.inl (h.2 p h1))
    · simp only [List.mem_singleton] at h2
      subst h2
      simp

theorem finalizePlugin_inv (cur : CurPlugin) (ps : List PluginRec) (sn : List String)
    (ext : List String) (h : pluginInv (ps, sn)) :
    pluginInv (finalizePlugin cur ps sn ext) := by
  unfold finalizePlugin
  by_cases hc : resolveRealId cur ext ≠ "" ∧ resolveRealId cur ext ∉ sn
  · rw [if_pos hc]
    exact pluginInv_push h _ hc.2
  · rw [if_neg hc]
    exact h

theorem flushCur_inv (cur? : Option CurPlugin) (ps : List PluginRec) (sn : List String)
    (ext : List String) (h : pluginInv (ps, sn)) :
    pluginInv (flushCur cur? ps sn ext) := by
  cases cur? with
  | none => exact h
  | some cur =>
    show pluginInv (if cur.id ≠ "" then finalizePlugin cur ps sn ext else (ps, sn))
    by_cases hid : cur.id ≠ ""
    · rw [if_pos hid]
      exact finalizePlugin_inv cur ps sn ext h
    · rw [if_neg hid]
      exact h

theorem processRow_inv (ext : List String) (acc : ParseAcc) (line : String)
    (h : pluginInv (acc.plugins, acc.seen)) :
    pluginInv ((processRow ext acc line).plugins, (processRow ext acc line).seen) := by
  simp only [processRow]
  split
  · exact h
  split
  · exact h
  split
  · exact h
  split
  · -- a status row: plugins/seen come from flushing the previous record
    exact flushCur_inv acc.cur acc.plugins acc.seen ext h
  -- a continuation row: only `cur` changes
  split
  · exact h
  split
  · exact h
  split
  · exact h
  · exact h

theorem foldl_preserve {α σ : Type} {P : σ → Prop} (f : σ → α → σ)
    (hf : ∀ s a, P s → P (f s a)) : ∀ (l : List α) (s : σ), P s → P (l.foldl f s)
  | [], _, h => h
  | a :: t, s, h => foldl_preserve f hf t (f s a) (hf s a h)

theorem fallbackFill_inv (cleaned : String) (extIds : List String)
    (ps : List PluginRec) (sn : List String) (h : pluginInv (ps, sn)) :
    pluginInv (fallbackFill cleaned extIds ps sn) := by
  unfold fallbackFill
  refine foldl_preserve _ ?_ extIds (ps, sn) h
  intro s extId hs
  by_cases hmem : extId ∈ s.2
  · rw [if_pos hmem]
    exact hs
  · rw [if_neg hmem]
    exact pluginInv_push (by exact hs) (fallbackRecord cleaned extId) hmem

theorem parseAcc_inv (E : List String) (lines : List String) :
    pluginInv ((lines.foldl (processRow E) { plugins := [], seen := [], cur := none }).plugins,
               (lines.foldl (processRow E) { plugins := [], seen := [], cur := none }).seen) := by
  refine foldl_preserve (P := fun acc : ParseAcc => pluginInv (acc.plugins, acc.seen)) _ ?_ lines _ ?_
  · intro s a hs
    exact processRow_inv E s a hs
  · exact ⟨List.nodup_nil, fun p hp => absurd hp (List.not_mem_nil p)⟩

theorem parseFlush_inv (E : List String) (lines : List String) :
    pluginInv (flushCur (lines.foldl (processRow E) { plugins := [], seen := [], cur := none }).cur
      (lines.foldl (processRow E) { plugins := [], seen := [], cur := none }).plugins
      (lines.foldl (processRow E) { plugins := [], seen := [], cur := none }).seen E) :=
  flushCur_inv _ _ _ E (parseAcc_inv E lines)

theorem parsePluginList_nodup (output : String) :
    ((parsePluginList output).map (fun p => p.id)).Nodup := by
  simp only [parsePluginList]
  split
  · exact (fallbackFill_inv _ _ _ _ (parseFlush_inv _ _)).1
  · exact (parseFlush_inv _ _).1

theorem ne_empty_of_contains {s pat : String} (h : strContains s pat = true) (hp : pat ≠ "") :
    s ≠ "" := by
  intro hs
  rw [hs, strContains_empty_hay pat hp] at h
  exact Bool.false_ne_true h

theorem getGatewayPath_restable (st : GwState) (env : Env) :
    getGatewayPath ({ (getGatewayPath st env).1 with status := .stopped,
                                                      feishuConnected := false }) env =
      ({ (getGatewayPath st env).1 with status := .stopped, feishuConnected := false },
       (getGatewayPath st env).2) := by
  unfold getGatewayPath detectEngine
  cases hep : st.enginePath with
  | some p =>
    by_cases hex : env.enginePathExists p
    · simp [hep, hex]
    · cases hd : env.detect with
      | some d =>
        simp only [hep, hex, Bool.false_eq_true, if_false, hd]
        by_cases hex2 : env.enginePathExists d.path <;> simp [hex2]
      | none => simp [hep, hex, hd]
  | none =>
    cases hd : env.detect with
    | some d =>
      simp only [hep, hd]
      by_cases hex2 : env.enginePathExists d.path <;> simp [hex2]
    | none => simp [hep, hd]

theorem getGatewayPath_fst_status (st : GwState) (env : Env) :
    (getGatewayPath st env).1.status = st.status := by
  unfold getGatewayPath detectEngine
  cases hep : st.enginePath with
  | some p =>
    by_cases hex : env.enginePathExists p <;> cases hd : env.detect <;> simp [hex, hd]
  | none => cases hd : env.detect <;> simp [hd]

theorem getGatewayPath_snd_congr (st st' : GwState) (env : Env)
    (h : st.enginePath = st'.enginePath) :
    (getGatewayPath st env).2 = (getGatewayPath st' env).2 := by
  unfold getGatewayPath detectEngine
  rw [h]
  cases hst : st'.enginePath with
  | some p =>
    by_cases hex : env.enginePathExists p <;> cases hd : env.detect <;> simp [hex, hd]
  | none => cases hd : env.detect <;> simp [hd]

theorem killStep_proc (s : Supervisor) :
    (killStep s).proc = none ∧ (killStep s).healthOn = false := by
  unfold killStep
  by_cases hp : s.proc.isSome <;> simp [hp]

theorem killStep_fixed (s1 : Supervisor) (h1 : s1.proc = none) (h2 : s1.healthOn = false) :
    killStep s1 = s1 := by
  cases s1
  unfold killStep
  simp_all

theorem stopFinish_flags (s1 : Supervisor) (env : Env) :
    (stopFinish s1 env).sup.proc = s1.proc ∧ (stopFinish s1 env).sup.healthOn = s1.healthOn := by
  simp only [stopFinish]
  cases hr : (getGatewayPath s1.state env).2 with
  | none => simp
  | some p => cases hb : buildSharedEnvThrown env <;> simp

theorem stop_noThrow_idem (s : Supervisor) (env : Env) (h : (stop s env).thrown = none) :
    stop (stop s env).sup env = stop s env := by
  have hkf := killStep_proc s
  have hff := stopFinish_flags (killStep s) env
  have hproc : (stop s env).sup.proc = none := by
    show (stopFinish (killStep s) env).sup.proc = none
    rw [hff.1, hkf.1]
  have hhealth : (stop s env).sup.healthOn = false := by
    show (stopFinish (killStep s) env).sup.healthOn = false
    rw [hff.2, hkf.2]
  show stopFinish (killStep (stop s env).sup) env = stop s env
  rw [killStep_fixed _ hproc hhealth]
  show stopFinish (stopFinish (killStep s) env).sup env = stopFinish (killStep s) env
  replace h : (stopFinish (killStep s) env).thrown = none := h
  generalize killStep s = k at h ⊢
  have hA := getGatewayPath_restable k.state env
  cases hr : (getGatewayPath k.state env).2 with
  | none =>
    have hA2 : getGatewayPath ({ (getGatewayPath k.state env).1 with
          status := .stopped, feishuConnected := false }) env =
        ({ (getGatewayPath k.state env).1 with
           status := .stopped, feishuConnected := false }, none) := by
      rw [hA, hr]
    simp [stopFinish, hr, hA2]
  | some p =>
    cases hb : buildSharedEnvThrown env with
    | some e =>
      simp [stopFinish, hr, hb] at h
    | none =>
      have hA2 : getGatewayPath ({ (getGatewayPath k.state env).1 with
            status := .stopped, feishuConnected := false }) env =
          ({ (getGatewayPath k.state env).1 with
             status := .stopped, feishuConnected := false }, some p) := by
        rw [hA, hr]
      simp [stopFinish, hr, hb, hA2]

/- ===================== §8 Claim theorems ===================== -/

/-- C6 counterexample: `stop()` is not total — it can throw to the caller
even with no owned child running.  With a resolvable engine path but no
bundled distribution (`bundled/node/bin/npm` absent entirely), `stop()`
reaches `buildSharedEnv` → `buildFullPath` → `findExecutable('npm')` →
`getBundledNpmPath`, whose unguarded `fs.lstatSync` throws `ENOENT`;
nothing on that path catches it, the final `stopped` state write is
skipped, and the stale `error` lifecycle with `feishuConnected = true`
survives the call. -/
theorem c6_counterexample :
    supErr.proc = none ∧
    (stop supErr envCrash).thrown =
      some "ENOENT: no such file or directory, lstat bundled/node/bin/npm" ∧
    (stop supErr envCrash).sup.state.status = .error ∧
    (stop supErr envCrash).sup.state.feishuConnected = true := by
  refine ⟨rfl, by decide, by decide, by decide⟩

/-- C6 amended: with no owned child the `if (this.process)` guard is false,
so no kill of an owned child is ever performed (in particular on a second
consecutive call); the call always ends with no owned child and no
health-check interval; `stop()` throws exactly when an engine path resolves
AND the bundled-npm probe hits the unguarded `fs.lstatSync` (`existsSync`
false, `lstatSync` failing); and whenever it does not throw it records
lifecycle `stopped` with `feishuConnected = false` and running it again in
the same environment reproduces the identical result, so the second call
is a no-op. -/
theorem c6_stop_idempotent (s : Supervisor) (env : Env) :
    (s.proc = none → stopKillsOwned s = false) ∧
    (stop s env).sup.proc = none ∧
    stopKillsOwned (stop s env).sup = false ∧
    ((stop s env).thrown.isSome =
      (((getGatewayPath s.state env).2).isSome && npmProbeThrows env.npmProbe)) ∧
    ((stop s env).thrown = none →
      (stop s env).sup.state.status = .stopped ∧
      (stop s env).sup.state.feishuConnected = false ∧
      stop (stop s env).sup env = stop s env) := by
  have hkf := killStep_proc s
  have hff := stopFinish_flags (killStep s) env
  have hproc : (stop s env).sup.proc = none := by
    show (stopFinish (killStep s) env).sup.proc = none
    rw [hff.1, hkf.1]
  refine ⟨?_, hproc, ?_, ?_, ?_⟩
  · intro h
    simp [stopKillsOwned, h]
  · simp [stopKillsOwned, hproc]
  · show (stopFinish (killStep s) env).thrown.isSome = _
    have hres : (getGatewayPath (killStep s).state env).2 = (getGatewayPath s.state env).2 := by
      refine getGatewayPath_snd_congr _ _ env ?_
      unfold killStep
      by_cases hp : s.proc.isSome <;> simp [hp]
    simp only [stopFinish, hres]
    cases hr : (getGatewayPath s.state env).2 with
    | none => simp
    | some p =>
      simp only [buildSharedEnvThrown, getBundledNpmPath, npmProbeThrows]
      by_cases h1 : env.npmProbe.pathExists
      · simp [h1]
      · cases h2 : env.npmProbe.lstat <;> simp [h1, h2]
  · intro h
    refine ⟨?_, ?_, stop_noThrow_idem s env h⟩
    · cases hr : (getGatewayPath (killStep s).state env).2 with
      | none => simp [stop, stopFinish, hr]
      | some p =>
        cases hb : buildSharedEnvThrown env with
        | some e => simp [stop, stopFinish, hr, hb] at h
        | none => simp [stop, stopFinish, hr, hb]
    · cases hr : (getGatewayPath (killStep s).state env).2 with
      | none => simp [stop, stopFinish, hr]
      | some p =>
        cases hb : buildSharedEnvThrown env with
        | some e => simp [stop, stopFinish, hr, hb] at h
        | none => simp [stop, stopFinish, hr, hb]

/-- C6 amended witness: the theorem applied with a resolvable engine and an
intact bundled npm — no throw, final state `stopped`/disconnected, and an
identical second call. -/
theorem c6_stop_idempotent_witness :
    stopKillsOwned supBase = false ∧
    ((stop supBase envOk).sup.state.status = .stopped ∧
     (stop supBase envOk).sup.state.feishuConnected = false ∧
     stop (stop supBase envOk).sup envOk = stop supBase envOk) :=
  ⟨(c6_stop_idempotent supBase envOk).1 rfl,
   (c6_stop_idempotent supBase envOk).2.2.2.2 (by decide)⟩

/-- C7: when no engine executable resolves, `start()` fails fast: it returns
the `engineMissing` outcome (the typed `Error('OpenClaw 引擎未安装')` thrown
before the `try` block that contains every preparation command and the
`spawn`), leaves the state at `error` / `not_installed` with the actionable
message, keeps the owned-process handle untouched (nothing was spawned),
and in particular never reaches the `.proceed` stage. -/
theorem c7_start_fails_fast_no_engine (s : Supervisor) (env : Env)
    (hs : ¬(s.state.status = .running ∨ s.state.status = .starting))
    (hn : (getGatewayPath s.state env).2 = none) :
    ∃ s' : Supervisor,
      startCheck s env = .engineMissing s' "OpenClaw 引擎未安装" ∧
      s'.state.status = .error ∧
      s'.state.engineStatus = .not_installed ∧
      s'.state.error = some "OpenClaw 引擎未安装。请先点击「安装引擎」按钮。" ∧
      s'.proc = s.proc ∧
      ∀ (s'' : Supervisor) (p : String), startCheck s env ≠ .proceed s'' p := by
  have key : startCheck s env = .engineMissing
      { s with
        state := { (getGatewayPath s.state env).1 with
          status := .error,
          error := some "OpenClaw 引擎未安装。请先点击「安装引擎」按钮。",
          engineStatus := .not_installed } }
      "OpenClaw 引擎未安装" := by
    unfold startCheck
    rw [if_neg hs]
    simp only [hn]
  refine ⟨_, key, rfl, rfl, rfl, rfl, ?_⟩
  intro s'' p
  rw [key]
  intro hcontra
  cases hcontra

/-- C7 witness: the theorem applied to the quiescent supervisor in an
environment with no engine anywhere. -/
theorem c7_start_fails_fast_no_engine_witness :
    ∃ s' : Supervisor,
      startCheck supBase envNoEngine = .engineMissing s' "OpenClaw 引擎未安装" ∧
      s'.state.status = .error ∧
      s'.state.engineStatus = .not_installed ∧
      s'.state.error = some "OpenClaw 引擎未安装。请先点击「安装引擎」按钮。" ∧
      s'.proc = supBase.proc ∧
      ∀ (s'' : Supervisor) (p : String), startCheck supBase envNoEngine ≠ .proceed s'' p :=
  c7_start_fails_fast_no_engine supBase envNoEngine (by decide) (by decide)

/-- C8: the `exit` handler maps a non-zero, non-null exit code to lifecycle
`error` with `feishuConnected = false` and a diagnostic equal to
`exitDetail`, which for code 127 contains the "命令未找到" (command not
found) hint and always appends the tail (last 800 characters) of the
trimmed captured stderr when non-blank; a zero or null code yields
lifecycle `stopped` with `feishuConnected = false`. -/
theorem c8_exit_code_handling (s : Supervisor) (c : Int) (stderr : String) (hc : c ≠ 0) :
    (onProcessExit s (some c) stderr).state.status = .error ∧
    (onProcessExit s (some c) stderr).state.feishuConnected = false ∧
    (onProcessExit s (some c) stderr).state.error = some (exitDetail c stderr) ∧
    (c = 127 → strContains (exitDetail c stderr) "命令未找到" = true) ∧
    (trimStr stderr ≠ "" →
      strContains (exitDetail c stderr) (takeRightStr (trimStr stderr) 800) = true) ∧
    (∀ c0 : Option Int, c0 = some 0 ∨ c0 = none →
      (onProcessExit s c0 stderr).state.status = .stopped ∧
      (onProcessExit s c0 stderr).state.feishuConnected = false) := by
  refine ⟨?_, ?_, ?_, ?_, ?_, ?_⟩
  · simp [onProcessExit, hc]
  · simp [onProcessExit, hc]
  · simp [onProcessExit, hc]
  · intro h127
    subst h127
    have hint : strContains (exitBase 127) "命令未找到" = true := by
      unfold exitBase
      rw [if_pos rfl]
      exact strContains_append_right _ _ _ (by decide)
    unfold exitDetail
    by_cases ht : trimStr stderr ≠ ""
    · rw [if_pos ht]
      exact strContains_append_left _ _ _ (strContains_append_left _ _ _ hint)
    · rw [if_neg ht]
      exact hint
  · intro ht
    unfold exitDetail
    rw [if_pos ht]
    exact strContains_suffix_self _ _
  · intro c0 h0
    rcases h0 with h0 | h0 <;> subst h0 <;> exact ⟨by simp [onProcessExit], by simp [onProcessExit]⟩

/-- C8 witness: the theorem applied at exit code 127 with a non-blank
captured stderr. -/
theorem c8_exit_code_handling_witness :
    (onProcessExit supBase (some 127) "sh: openclaw: command not found").state.status = .error ∧
    strContains (exitDetail 127 "sh: openclaw: command not found") "命令未找到" = true ∧
    strContains (exitDetail 127 "sh: openclaw: command not found")
      (takeRightStr (trimStr "sh: openclaw: command not found") 800) = true ∧
    (onProcessExit supBase (some 0) "sh: openclaw: command not found").state.status = .stopped :=
  ⟨(c8_exit_code_handling supBase 127 "sh: openclaw: command not found" (by decide)).1,
   (c8_exit_code_handling supBase 127 "sh: openclaw: command not found" (by decide)).2.2.2.1 rfl,
   (c8_exit_code_handling supBase 127 "sh: openclaw: command not found" (by decide)).2.2.2.2.1
     (by decide),
   ((c8_exit_code_handling supBase 127 "sh: openclaw: command not found" (by decide)).2.2.2.2.2
     (some 0) (Or.inl rfl)).1⟩

/-- C10: calling `start()` while the lifecycle is `running` or `starting`
returns immediately: the outcome is `alreadyActive` carrying the supervisor
completely unchanged — nothing is spawned, no preparation command runs, and
nothing is thrown. -/
theorem c10_start_noop_when_active (s : Supervisor) (env : Env)
    (h : s.state.status = .running ∨ s.state.status = .starting) :
    startCheck s env = .alreadyActive s := by
  unfold startCheck
  rw [if_pos h]

/-- C10 witness: the theorem applied to a supervisor already `running`. -/
theorem c10_start_noop_when_active_witness :
    startCheck { supBase with state := { stBase with status := .running } } envNoEngine =
      .alreadyActive { supBase with state := { stBase with status := .running } } :=
  c10_start_noop_when_active _ envNoEngine (Or.inl rfl)

/-- C9 counterexample: the claimed invariant "lifecycle is never `running`
while `pid` is absent" fails on the code.  From a supervisor with no owned
process and lifecycle `stopped` (the state left behind when the child exits
cleanly — reachable because `stopHealthCheck()` clears only the interval,
never the initial 3-second one-shot health-check timer), a single health
tick whose HTTP probe succeeds (an externally surviving gateway on port
18789) makes `getState()` return lifecycle `running` with `pid = none`:
`doHealthCheck` promotes to `running` on the probe alone, without checking
`this.process`. -/
theorem c9_counterexample :
    supBase.proc = none ∧ supBase.state.status = .stopped ∧
    getState (healthTick supBase inpBase) = { status := .running, pid := none } := by
  refine ⟨rfl, rfl, ?_⟩
  decide

/-- C9 amended: `running` is only ever entered with evidence.  The
`waitForReady` timeout path declares `running` only when an owned child
still exists (so the snapshot has a pid); a health-check tick can reach
`running` only if the state was already `running` or the HTTP probe
succeeded (the probe-only path is exactly the external-gateway case in
which the snapshot may carry no pid); `stop()` never produces `running`
(when it completes without throwing it ends `stopped`; on its exceptional
path it can only leave a `running` status that was already there); the
exit handler never produces `running`; and the `start()` prefix that
proceeds sets `starting`, not `running`. -/
theorem c9_amended_running_sources (s : Supervisor) (st : GwState) (pa : Bool)
    (inp : HealthInputs) (env : Env) (c : Option Int) (e : String) :
    ((waitForReadyTimeout s).2 = true →
      (waitForReadyTimeout s).1.state.status = .running ∧
      ((getState (waitForReadyTimeout s).1).pid).isSome = true) ∧
    ((doHealthCheck st pa inp).status = .running →
      st.status = .running ∨ inp.httpOk = true) ∧
    ((stop s env).thrown = none → (stop s env).sup.state.status ≠ .running) ∧
    ((stop s env).sup.state.status = .running → s.state.status = .running) ∧
    (onProcessExit s c e).state.status ≠ .running ∧
    (∀ (s' : Supervisor) (p : String), startCheck s env = .proceed s' p →
      s'.state.status = .starting) := by
  refine ⟨?_, ?_, ?_, ?_, ?_, ?_⟩
  · intro h
    unfold waitForReadyTimeout at h ⊢
    by_cases hp : s.proc.isSome
    · rw [if_pos hp]
      exact ⟨rfl, hp⟩
    · rw [if_neg hp] at h
      exact absurd h (by simp)
  · intro h
    rw [doHealth_status] at h
    by_cases h1 : inp.httpOk
    · exact Or.inr h1
    · rw [if_neg h1] at h
      by_cases h2 : (!pa && decide (st.status = .running)) = true
      · rw [if_pos h2] at h
        cases h
      · rw [if_neg h2] at h
        exact Or.inl h
  · show (stopFinish (killStep s) env).thrown = none →
      (stopFinish (killStep s) env).sup.state.status ≠ .running
    simp only [stopFinish]
    cases hr : (getGatewayPath (killStep s).state env).2 with
    | none =>
      intro _ hcontra
      exact GatewayStatus.noConfusion hcontra
    | some p =>
      cases hb : buildSharedEnvThrown env with
      | some e0 =>
        intro hcontra
        cases hcontra
      | none =>
        intro _ hcontra
        exact GatewayStatus.noConfusion hcontra
  · have hst : (getGatewayPath (killStep s).state env).1.status = (killStep s).state.status :=
      getGatewayPath_fst_status _ env
    show (stopFinish (killStep s) env).sup.state.status = .running → s.state.status = .running
    simp only [stopFinish]
    cases hr : (getGatewayPath (killStep s).state env).2 with
    | none =>
      intro hcontra
      exact GatewayStatus.noConfusion hcontra
    | some p =>
      cases hb : buildSharedEnvThrown env with
      | some e0 =>
        intro hcontra
        rw [hst] at hcontra
        unfold killStep at hcontra
        by_cases hp : s.proc.isSome
        · rw [if_pos hp] at hcontra
          exact GatewayStatus.noConfusion hcontra
        · rw [if_neg hp] at hcontra
          exact hcontra
      | none =>
        intro hcontra
        exact GatewayStatus.noConfusion hcontra
  · cases c with
    | none => intro h; cases h
    | some c0 =>
      by_cases hc : c0 ≠ 0 <;> simp [onProcessExit, hc]
  · intro s' p h
    unfold startCheck at h
    by_cases hs : s.state.status = .running ∨ s.state.status = .starting
    · rw [if_pos hs] at h
      cases h
    · rw [if_neg hs] at h
      cases hr : (getGatewayPath s.state env).2 with
      | none =>
        simp only [hr] at h
        cases h
      | some q =>
        simp only [hr] at h
        cases h
        rfl

/-- C9 amended witness: the timeout path with an owned pid, and a probe-free
tick that keeps a non-running status. -/
theorem c9_amended_running_sources_witness :
    ((waitForReadyTimeout { supBase with proc := some 1234 }).1.state.status = .running ∧
     ((getState (waitForReadyTimeout { supBase with proc := some 1234 }).1).pid).isSome = true) ∧
    (stBase.status = .running ∨ inpBase.httpOk = true) :=
  ⟨(c9_amended_running_sources { supBase with proc := some 1234 } stBase false inpBase
      envNoEngine none "").1 (by decide),
   (c9_amended_running_sources { supBase with proc := some 1234 } stBase false inpBase
      envNoEngine none "").2.1 (by decide)⟩

/-- C1 counterexample: the claim "every health-check tick with no recognized
positive connectivity signal leaves `feishuConnected` unchanged, and
disconnection is never inferred from mere absence of evidence" fails on the
code.  On a tick whose log window yields no verdict at all
(`logVerdict = false`), with the HTTP probe down, no live owned process and
lifecycle `running`, `doHealthCheck` resets `feishuConnected` from `true`
to `false` (the 健康检查失败 liveness branch). -/
theorem c1_counterexample :
    logVerdict (([] : List String)) = false ∧
    ({ stBase with status := .running, feishuConnected := true } : GwState).feishuConnected
      = true ∧
    (doHealthCheck { stBase with status := .running, feishuConnected := true } false
      { inpBase with httpOk := false }).feishuConnected = false := by
  refine ⟨by decide, rfl, by decide⟩

/-- C1 amended: a log line with no recognized signal leaves the whole state
unchanged; a health-check tick whose log window yields no verdict never
raises `feishuConnected` from `false` to `true`; and such a tick leaves
`feishuConnected` unchanged **except** when the liveness check trips — HTTP
probe down, no live owned process, and lifecycle `running` — in which case
the gateway is marked dead and `feishuConnected` is forced to `false`. -/
theorem c1_amended_no_signal (st : GwState) (out : String) (pa : Bool) (inp : HealthInputs) :
    (lineNoSignal out = true → detectFeishuFromLog st out = st) ∧
    (logVerdict inp.logLines = false → st.feishuConnected = false →
      (doHealthCheck st pa inp).feishuConnected = false) ∧
    (logVerdict inp.logLines = false →
      ¬(inp.httpOk = false ∧ pa = false ∧ st.status = .running) →
      (doHealthCheck st pa inp).feishuConnected = st.feishuConnected) := by
  refine ⟨?_, ?_, ?_⟩
  · intro h
    unfold lineNoSignal at h
    simp only [Bool.and_eq_true, Bool.not_eq_true'] at h
    unfold detectFeishuFromLog
    rw [h.1.1.1, h.1.1.2, h.1.2, h.2]
    rfl
  · intro hv hfc
    rw [doHealth_feishu_of_no_verdict st pa inp hv, hfc]
    split <;> rfl
  · intro hv hlive
    rw [doHealth_feishu_of_no_verdict st pa inp hv]
    have : (!inp.httpOk && !pa && decide (st.status = .running)) = false := by
      by_cases h1 : inp.httpOk <;> by_cases h2 : pa <;>
        by_cases h3 : st.status = .running <;> simp_all
    rw [this]
    rfl

/-- C1 amended witness: a signal-free line and a signal-free tick applied at
concrete inputs. -/
theorem c1_amended_no_signal_witness :
    (detectFeishuFromLog stBase "agent model fallback configured" = stBase) ∧
    ((doHealthCheck stBase false inpBase).feishuConnected = false) ∧
    ((doHealthCheck stBase false inpBase).feishuConnected = stBase.feishuConnected) :=
  ⟨(c1_amended_no_signal stBase "agent model fallback configured" false inpBase).1 (by decide),
   (c1_amended_no_signal stBase "agent model fallback configured" false inpBase).2.1
     (by decide) rfl,
   (c1_amended_no_signal stBase "agent model fallback configured" false inpBase).2.2
     (by decide) (by decide)⟩

/-- C2 counterexample: two parts of the claim fail on the code.  First, an
active-traffic line does **not** replace a stale fatal detail when that
fatal detail happens to contain the warning marker `⚠️` (the code keeps any
previous detail containing `⚠️`, which is how it recognizes permission
warnings): after a fatal line `feishu channel stopped ⚠️` followed by the
active line `feishu ws connected`, the verdict is connected but the detail
is still the old fatal text.  Second, at the health-check level an
active-traffic signal does not always win: on the same tick a failed HTTP
probe with no live owned process and lifecycle `running` overrides the
verdict back to `feishuConnected = false`. -/
theorem c2_counterexample :
    activeLineSig "feishu ws connected" = true ∧
    fatalLineSig "feishu channel stopped ⚠️" = true ∧
    (detectFeishuFromLog
        (detectFeishuFromLog { stBase with status := .running, feishuConnected := true }
          "feishu channel stopped ⚠️")
        "feishu ws connected").feishuConnected = true ∧
    (detectFeishuFromLog
        (detectFeishuFromLog { stBase with status := .running, feishuConnected := true }
          "feishu channel stopped ⚠️")
        "feishu ws connected").feishuDetail =
      some "飞书异常: \"feishu channel stopped ⚠️\"" ∧
    hasActiveSignal ["feishu received message"] = true ∧
    (doHealthCheck { stBase with status := .running } false
      { inpBase with httpOk := false, logLines := ["feishu received message"],
                     totalLines := 1 }).feishuConnected = false := by
  refine ⟨by decide, by decide, by decide, by decide, by decide, by decide⟩

/-- C2 amended: on an active-traffic line `detectFeishuFromLog` always sets
`feishuConnected = true` and replaces the previous detail with the
connected message **unless** the previous detail contains the marker `⚠️`
(permission warnings always do, so they are preserved; a fatal detail is
replaced exactly when it is `⚠️`-free), and any fatal-looking text from
another subsystem in the same batch is ignored because the active branch
returns first; at the health-check level, a window with an active or
connected signal yields `feishuConnected = true` provided the tick's
liveness check does not trip (HTTP down, no live owned process, status
`running`). -/
theorem c2_amended_active_precedence (st : GwState) (out : String) (pa : Bool)
    (inp : HealthInputs) :
    (activeLineSig out = true →
      (detectFeishuFromLog st out).feishuConnected = true ∧
      (detectFeishuFromLog st out).feishuDetail =
        some (if strContains (st.feishuDetail.getD "") "⚠️" then st.feishuDetail.getD ""
              else "飞书已连接并工作中")) ∧
    ((hasActiveSignal inp.logLines || hasConnectedSignal inp.logLines) = true →
      ¬(inp.httpOk = false ∧ pa = false ∧ st.status = .running) →
      (doHealthCheck st pa inp).feishuConnected = true) := by
  constructor
  · intro hA
    unfold detectFeishuFromLog
    rw [if_pos hA]
    refine ⟨rfl, ?_⟩
    by_cases hc : strContains (st.feishuDetail.getD "") "⚠️"
    · have hne : st.feishuDetail.getD "" ≠ "" := ne_empty_of_contains hc (by decide)
      simp [hc, hne]
    · simp [hc]
  · intro h hlive
    exact doHealth_feishu_active st pa inp h hlive

/-- C2 amended witness: the active line applied on a state with no previous
detail, and an active-signal tick with the probe up. -/
theorem c2_amended_active_precedence_witness :
    ((detectFeishuFromLog stBase "feishu ws connected").feishuConnected = true ∧
     (detectFeishuFromLog stBase "feishu ws connected").feishuDetail =
       some (if strContains ((stBase : GwState).feishuDetail.getD "") "⚠️" then
               (stBase : GwState).feishuDetail.getD ""
             else "飞书已连接并工作中")) ∧
    (doHealthCheck stBase true
      { inpBase with logLines := ["feishu received message"], totalLines := 1 }).feishuConnected
      = true :=
  ⟨(c2_amended_active_precedence stBase "feishu ws connected" true
      { inpBase with logLines := ["feishu received message"], totalLines := 1 }).1 (by decide),
   (c2_amended_active_precedence stBase "feishu ws connected" true
      { inpBase with logLines := ["feishu received message"], totalLines := 1 }).2
     (by decide) (by decide)⟩

/-- C3: the plugin parser recovers a truncated id and deduplicates, for every
table input.  Universally over rows: whenever the accumulated source text of a
row yields an `extensions/<id>/` capture, `resolveRealId` returns that full id
(overriding the truncated table id); when no capture exists, a non-empty table
id falls back to the first candidate identifier related to it by string prefix;
when that too fails, the table id itself is kept.  Every record that
`finalizePlugin` emits carries a so-resolved id, and a row whose resolved id
was already seen adds no record, so the output of `parsePluginList` never
contains two records with the same id.  Concretely, a table whose id cell is
truncated to `bluebubb` but whose source cell is
`extensions/bluebubbles/index.ts`, followed by a second row resolving to the
same id, parses to exactly one record with id `bluebubbles`. -/
theorem c3_truncated_id_recovery_dedup (cur : CurPlugin) (extIds : List String)
    (i e : String) (plugins : List PluginRec) (seen : List String) (p : PluginRec) :
    (firstExtId cur.source = some i → resolveRealId cur extIds = i) ∧
    (firstExtId cur.source = none → cur.id ≠ "" →
      extIds.find? (fun x => isPrefixOfStr cur.id x || isPrefixOfStr x cur.id) = some e →
      resolveRealId cur extIds = e) ∧
    (firstExtId cur.source = none →
      extIds.find? (fun x => isPrefixOfStr cur.id x || isPrefixOfStr x cur.id) = none →
      resolveRealId cur extIds = cur.id) ∧
    (p ∈ (finalizePlugin cur plugins seen extIds).1 →
      p ∈ plugins ∨ p.id = resolveRealId cur extIds) ∧
    (resolveRealId cur extIds ∈ seen → (finalizePlugin cur plugins seen extIds).1 = plugins) ∧
    (∀ output : String, ((parsePluginList output).map (fun q => q.id)).Nodup) ∧
    parsePluginList
        ("| @openclaw/bluebubbles | bluebubb | loaded | extensions/bluebubbles/index.ts |\n" ++
         "| bluebubbles | bluebubbles | loaded | extensions/bluebubbles/index.ts |") =
      [{ name := "bluebubbles", id := "bluebubbles", status := "loaded", description := "" }] := by
  refine ⟨?_, ?_, ?_, ?_, ?_, parsePluginList_nodup, by decide⟩
  · intro h
    simp [resolveRealId, h]
  · intro h1 h2 h3
    simp [resolveRealId, h1, h2, h3]
  · intro h1 h2
    simp [resolveRealId, h1, h2]
  · intro hp
    simp only [finalizePlugin] at hp
    by_cases hg : resolveRealId cur extIds ≠ "" ∧ resolveRealId cur extIds ∉ seen
    · rw [if_pos hg] at hp
      rcases List.mem_append.mp hp with h | h
      · exact Or.inl h
      · rw [List.mem_singleton.mp h]
        exact Or.inr rfl
    · rw [if_neg hg] at hp
      exact Or.inl hp
  · intro hs
    simp only [finalizePlugin]
    rw [if_neg (fun hc => hc.2 hs)]

/-- C3 witness: the three resolution tiers at concrete rows — the truncated id
`bluebubb` is recovered to `bluebubbles` from the source capture, or, absent a
capture, by prefix match against the candidate set, and kept as-is when both
fail — and a row whose resolved id was already seen emits nothing. -/
theorem c3_truncated_id_recovery_dedup_witness :
    (firstExtId curTruncA.source = some "bluebubbles" ∧
      resolveRealId curTruncA ["bluebubbles"] = "bluebubbles") ∧
    (firstExtId curTruncB.source = none ∧
      resolveRealId curTruncB ["bluebubbles"] = "bluebubbles") ∧
    resolveRealId curTruncB [] = "bluebubb" ∧
    (finalizePlugin curTruncA [] ["bluebubbles"] ["bluebubbles"]).1 = [] :=
  ⟨⟨by decide,
    (c3_truncated_id_recovery_dedup curTruncA ["bluebubbles"] "bluebubbles" "" [] []
        { name := "", id := "", status := "", description := "" }).1 (by decide)⟩,
   ⟨by decide,
    (c3_truncated_id_recovery_dedup curTruncB ["bluebubbles"] "" "bluebubbles" [] []
        { name := "", id := "", status := "", description := "" }).2.1
      (by decide) (by decide) (by decide)⟩,
   (c3_truncated_id_recovery_dedup curTruncB [] "" "" [] []
        { name := "", id := "", status := "", description := "" }).2.2.1
      (by decide) (by decide),
   (c3_truncated_id_recovery_dedup curTruncA ["bluebubbles"] "" "" [] ["bluebubbles"]
        { name := "", id := "", status := "", description := "" }).2.2.2.2.1 (by decide)⟩

/-- C4: the direct upstream credential check is consulted on a tick exactly
when the tick's log analysis produced no verdict, and its result flows only
into the diagnostic detail fields.  `feishuConnected`, `status` and `error`
after a tick are independent of the API result; when no log verdict exists
the API result determines `feishuDetail` — the distinctly labelled
"credentials valid but no connector confirmation" message (`apiTokenOkDetail`)
or the "凭证验证失败" (credential validation failed) message; when a log
verdict exists the whole tick outcome ignores the API result. -/
theorem c4_direct_api_detail_only (st : GwState) (pa : Bool) (inp : HealthInputs)
    (a a' : ApiResult) :
    ((doHealthCheck st pa { inp with api := a }).feishuConnected =
      (doHealthCheck st pa { inp with api := a' }).feishuConnected) ∧
    ((doHealthCheck st pa { inp with api := a }).status =
      (doHealthCheck st pa { inp with api := a' }).status) ∧
    ((doHealthCheck st pa { inp with api := a }).error =
      (doHealthCheck st pa { inp with api := a' }).error) ∧
    (logVerdict inp.logLines = false →
      (doHealthCheck st pa { inp with api := a }).feishuDetail =
        some (if a.tokenOk then apiTokenOkDetail a else "飞书凭证验证失败: " ++ a.detail)) ∧
    (logVerdict inp.logLines = true →
      doHealthCheck st pa { inp with api := a } = doHealthCheck st pa { inp with api := a' }) := by
  have h5 : logVerdict inp.logLines = true →
      doHealthCheck st pa { inp with api := a } = doHealthCheck st pa { inp with api := a' } := by
    intro h
    unfold doHealthCheck
    have hd := analyze_detected st inp.logPath inp.logLines inp.totalLines
    simp only [hd, h, if_true]
  refine ⟨?_, ?_, ?_, ?_, h5⟩
  · by_cases hv : logVerdict inp.logLines
    · rw [h5 hv]
    · rw [doHealth_feishu_of_no_verdict st pa _ (by simpa using hv),
          doHealth_feishu_of_no_verdict st pa _ (by simpa using hv)]
  · rw [doHealth_status, doHealth_status]
  · rw [doHealth_error, doHealth_error]
  · intro hv
    exact doHealth_detail_of_no_verdict st pa { inp with api := a } (by simpa using hv)

/-- C4 witness: a verdict-free tick (empty log window) showing the labelled
credential-failure detail, and a verdict-carrying tick ignoring the API
result. -/
theorem c4_direct_api_detail_only_witness :
    ((doHealthCheck stBase false
        { inpBase with api := { tokenOk := false, botOk := false, detail := "请求超时" } }).feishuDetail =
      some (if (false : Bool) then
              apiTokenOkDetail { tokenOk := false, botOk := false, detail := "请求超时" }
            else "飞书凭证验证失败: " ++ "请求超时")) ∧
    (doHealthCheck stBase false
        { inpBase with logLines := ["feishu connected"], totalLines := 1,
                       api := { tokenOk := false, botOk := false, detail := "请求超时" } } =
      doHealthCheck stBase false
        { inpBase with logLines := ["feishu connected"], totalLines := 1,
                       api := { tokenOk := true, botOk := true, detail := "凭证有效 ✓" } }) :=
  ⟨(c4_direct_api_detail_only stBase false inpBase
      { tokenOk := false, botOk := false, detail := "请求超时" }
      { tokenOk := true, botOk := true, detail := "凭证有效 ✓" }).2.2.2.1 (by decide),
   (c4_direct_api_detail_only stBase false
      { inpBase with logLines := ["feishu connected"], totalLines := 1 }
      { tokenOk := false, botOk := false, detail := "请求超时" }
      { tokenOk := true, botOk := true, detail := "凭证有效 ✓" }).2.2.2.2 (by decide)⟩

/-- C5 counterexample: the claim promises a warning detail "listing the
missing permissions", but the health-check permission-only branch stores a
generic warning without the list.  A tick whose only feishu line is a
permission error naming `im:message` sets `feishuConnected = true` with
detail `飞书已连接 ⚠️ 部分权限缺失`, which does not contain `im:message`. -/
theorem c5_counterexample :
    hasPermissionWarning ["[info] feishu permission error required: [im:message]"] = true ∧
    (doHealthCheck { stBase with status := .running } true
      { inpBase with logLines := ["[info] feishu permission error required: [im:message]"],
                     totalLines := 1 }).feishuConnected = true ∧
    (doHealthCheck { stBase with status := .running } true
      { inpBase with logLines := ["[info] feishu permission error required: [im:message]"],
                     totalLines := 1 }).feishuDetail = some "飞书已连接 ⚠️ 部分权限缺失" ∧
    strContains "飞书已连接 ⚠️ 部分权限缺失" "im:message" = false := by
  refine ⟨by decide, by decide, by decide, by decide⟩

/-- C5 amended: a permission-warning signal never downgrades
`feishuConnected` and optimistically connects.  On a permission-warning log
line (not also matching the active branch) `detectFeishuFromLog` ends with
`feishuConnected = true` — whatever the previous value — and stores
`permWarningDetail`, which lists the extracted missing permissions; on a
health-check window whose only signal is the permission warning the state
becomes connected with the generic `部分权限缺失` warning (no permission
list), provided the tick's liveness check does not trip. -/
theorem c5_amended_permission_optimistic (st : GwState) (out : String) (pa : Bool)
    (inp : HealthInputs) :
    (permLineSig out = true → activeLineSig out = false →
      (detectFeishuFromLog st out).feishuConnected = true ∧
      (detectFeishuFromLog st out).feishuDetail = some (permWarningDetail out)) ∧
    (hasPermissionWarning inp.logLines = true → hasActiveSignal inp.logLines = false →
      hasConnectedSignal inp.logLines = false → hasFatalError inp.logLines = false →
      ¬(inp.httpOk = false ∧ pa = false ∧ st.status = .running) →
      (doHealthCheck st pa inp).feishuConnected = true ∧
      (doHealthCheck st pa inp).feishuDetail = some "飞书已连接 ⚠️ 部分权限缺失") := by
  constructor
  · intro hP hA
    unfold detectFeishuFromLog
    rw [if_neg (by simp [hA]), if_pos hP]
    by_cases hc : st.feishuConnected <;> simp [hc]
  · intro hP hA hC hF hlive
    exact doHealth_perm_only st pa inp hP hA hC hF hlive

/-- C5 amended witness: a concrete permission-error line and a concrete
permission-only health tick. -/
theorem c5_amended_permission_optimistic_witness :
    ((detectFeishuFromLog stBase "feishu permission error required: [im:message]").feishuConnected
        = true ∧
     (detectFeishuFromLog stBase "feishu permission error required: [im:message]").feishuDetail =
        some (permWarningDetail "feishu permission error required: [im:message]")) ∧
    ((doHealthCheck stBase true
        { inpBase with logLines := ["feishu permission error required: [im:message]"],
                       totalLines := 1 }).feishuConnected = true ∧
     (doHealthCheck stBase true
        { inpBase with logLines := ["feishu permission error required: [im:message]"],
                       totalLines := 1 }).feishuDetail = some "飞书已连接 ⚠️ 部分权限缺失") :=
  ⟨(c5_amended_permission_optimistic stBase "feishu permission error required: [im:message]"
      true { inpBase with logLines := ["feishu permission error required: [im:message]"],
                          totalLines := 1 }).1 (by decide) (by decide),
   (c5_amended_permission_optimistic stBase "feishu permission error required: [im:message]"
      true { inpBase with logLines := ["feishu permission error required: [im:message]"],
                          totalLines := 1 }).2 (by decide) (by decide) (by decide) (by decide) (by decide)⟩

end OpenClawGateway
